import Mathlib

/-!
Verification of the incremental-game economy engine of `ipigs.py`.

The numeric values of the program (Python `float` and `Decimal`) are embedded
as rationals (`ℚ`): every constant appearing in the program (`1.05`, `1.15`,
`0.1`, ...) is an exact decimal, and the program's arithmetic on them is
ordinary field arithmetic.  Python's `round(x, 2)` (round-half-to-even to two
decimal places) is embedded as `round2`.  The Python `dict` of particles is
embedded as an ordered association list (Python dicts preserve insertion
order and have unique keys).
-/

namespace Ipigs

/-- Round-half-to-even to an integer, the rounding used by Python's `round`. -/
def roundHalfEven (q : ℚ) : ℤ :=
  let f := ⌊q⌋
  let r := q - f
  if r < 1/2 then f
  else if 1/2 < r then f + 1
  else if f % 2 = 0 then f else f + 1

/-- Python's `round(x, 2)`: round to two decimal places. -/
def round2 (q : ℚ) : ℚ :=
  (roundHalfEven (q * 100) : ℚ) / 100

/-- Embeds the `ParticleType` dataclass of `ipigs.py` (all fields). -/
structure ParticleType where
  name : String
  base_cost : ℚ
  cost_growth : ℚ
  base_production : ℚ
  produces : String
  color : ℕ × ℕ × ℕ
  count : ℚ
  upgrades : List String
  description : String
  unlocked : Bool
  purchased_upgrades : List String
deriving Repr, DecidableEq

/-- Embeds `ParticleType.calculate_cost`.  The source computes
`base_cost * cost_growth ** exponent` with `exponent = min(count, 1000)`, a
float that can be non-integral; rational arithmetic represents that power
exactly only for integral exponents, so the power is taken at the exponent's
numerator (which equals the exponent whenever the exponent is an integer;
theorems about the cost therefore assume an integral `count`).  The result is
rounded to two decimals (`round(raw_cost, 2)` in the source). -/
def ParticleType.calculate_cost (p : ParticleType) : ℚ :=
  let exponent : ℚ := if p.count > 1000 then 1000 else p.count
  round2 (p.base_cost * p.cost_growth ^ exponent.num)

/-- Embeds `ParticleType.calculate_production_per_second`:
`count * base_production * prestige_bonus` times `1.05` per purchased
upgrade. -/
def ParticleType.calculate_production_per_second (p : ParticleType) (prestige_bonus : ℚ) : ℚ :=
  p.count * p.base_production * prestige_bonus * (1.05 : ℚ) ^ p.purchased_upgrades.length

/-- Embeds `ParticleType.add_purchased_upgrade`: append the name if absent. -/
def ParticleType.add_purchased_upgrade (p : ParticleType) (n : String) : ParticleType :=
  if n ∈ p.purchased_upgrades then p
  else { p with purchased_upgrades := p.purchased_upgrades ++ [n] }

/-- Embeds the `Achievement` class (the `condition` callable is dispatched by
name through `achCondition` below, exactly as bound in `init_achievements`). -/
structure Achievement where
  name : String
  description : String
  reward : ℚ
  unlocked : Bool
deriving Repr, DecidableEq

/-- Embeds the `Upgrade` dataclass (the `effect` callable is dispatched by
name, exactly as bound in `init_upgrades`).  In the source the `unlocked`
field of an upgrade is its purchased flag. -/
structure Upgrade where
  name : String
  cost : ℚ
  cost_growth : ℚ
  description : String
  particle_requirement : String
  currency : String
  unlocked : Bool
deriving Repr, DecidableEq

/-- Embeds the mutable fields of the `GameState` class (the transient UI
`message_queue` is out of scope). -/
structure GameState where
  cash : ℚ
  prestige_level : ℤ
  prestige_bonus : ℚ
  last_update : ℚ
  total_earnings : ℚ
  particles : List (String × ParticleType)
  upgrades : List Upgrade
  booster_upgrades : List Upgrade
  achievements : List Achievement
deriving Repr, DecidableEq

/-- Lookup in the particle dict (`self.particles[k]` when present). -/
def pget (ps : List (String × ParticleType)) (k : String) : Option ParticleType :=
  match ps with
  | [] => none
  | (k', p) :: rest => if k' = k then some p else pget rest k

/-- In-place update of the entry at key `k` (Python mutates the stored
object; keys are unique in a dict, so updating the first occurrence is
exact). -/
def pmodify (ps : List (String × ParticleType)) (k : String)
    (f : ParticleType → ParticleType) : List (String × ParticleType) :=
  match ps with
  | [] => []
  | (k', p) :: rest =>
    if k' = k then (k', f p) :: rest else (k', p) :: pmodify rest k f

/-- Embeds `GameState.perform_prestige` (lines 381-389): requires
`cash >= 1000`; on success bumps the level, recomputes the bonus as
`1 + 0.1 * level`, zeroes cash and every particle count. -/
def GameState.perform_prestige (s : GameState) : GameState × Bool :=
  if s.cash ≥ 1000 then
    ({ s with
        prestige_level := s.prestige_level + 1
        prestige_bonus := 1 + (0.1 : ℚ) * ((s.prestige_level + 1 : ℤ) : ℚ)
        cash := 0
        particles := s.particles.map fun kv => (kv.1, { kv.2 with count := 0 }) },
      true)
  else (s, false)

/-- One iteration of the production loop of `GameState.update_economy`
(lines 348-366): for one key of the particle dict, if the particle is
unlocked, multiply its per-second production by the elapsed time; cash
production is added to `cash` and to the running `total_cash_earned`
accumulator (the second component), other production is added to the target
particle's `count`, which is then rounded to two decimals.  A `produces`
target that is not in the dict only prints a warning in the source. -/
def econStep (dt : ℚ) (acc : GameState × ℚ) (k : String) : GameState × ℚ :=
  let s := acc.1
  match pget s.particles k with
  | none => acc
  | some p =>
    if p.unlocked then
      let produced := p.calculate_production_per_second s.prestige_bonus * dt
      if p.produces = "cash" then
        ({ s with cash := s.cash + produced }, acc.2 + produced)
      else
        match pget s.particles p.produces with
        | some _ =>
          let ps := pmodify s.particles p.produces
            (fun q => { q with count := round2 (q.count + produced) })
          ({ s with particles := ps }, acc.2)
        | none => acc
    else acc

/-- The beta unlock message literal of line 374. -/
def betaMsg : String := "Beta particles unlocked! >>"

/-- The gamma unlock message literal of line 377. -/
def gammaMsg : String := "Gamma particles unlocked! >>"

/-- One unlock-threshold check of `update_economy` (lines 372-377): if the
lifetime earnings `earn` have reached `threshold` and the particle at `key`
is still locked, unlock it and append `msg`. -/
def unlockStep (threshold : ℚ) (key msg : String) (earn : ℚ)
    (acc : GameState × List String) : GameState × List String :=
  match pget acc.1.particles key with
  | some p =>
    if earn ≥ threshold ∧ p.unlocked = false then
      let ps := pmodify acc.1.particles key (fun q => { q with unlocked := true })
      ({ acc.1 with particles := ps }, acc.2 ++ [msg])
    else acc
  | none => acc

/-- The unlock-threshold checks at the end of `update_economy`
(lines 372-377): beta at 500, then gamma at 5000, both against the state's
(already updated) `total_earnings`.  The source indexes
`self.particles["beta"]` and `["gamma"]` directly; every state the program
constructs contains both keys (`init_particles`,
`ensure_default_particles`), so a missing key — which would raise
`KeyError` — is modelled as skipping the check. -/
def unlockChecks (s : GameState) : GameState × List String :=
  unlockStep 5000 "gamma" gammaMsg s.total_earnings
    (unlockStep 500 "beta" betaMsg s.total_earnings (s, []))

/-- Embeds `GameState.update_economy` (lines 341-379) with an explicit
elapsed time `dt` and an explicit current wall-clock time `now` (the source
reads `time.time()`; with `time_diff=None` it uses
`time_since_last_update`, see `update_economy_wallclock`).  Returns the new
state and the unlock messages (the source returns `None` for the empty
list). -/
def GameState.update_economy (s : GameState) (dt now : ℚ) : GameState × List String :=
  let keys := s.particles.map Prod.fst
  let r := keys.foldl (econStep dt) (s, 0)
  let s2 := { r.1 with total_earnings := r.1.total_earnings + r.2, last_update := now }
  unlockChecks s2

/-- Embeds `GameState.time_since_last_update` (lines 338-339). -/
def GameState.time_since_last_update (s : GameState) (now : ℚ) : ℚ :=
  now - s.last_update

/-- `update_economy` with `time_diff=None`: the elapsed time is derived,
unclamped, from the wall clock (lines 342-343). -/
def GameState.update_economy_wallclock (s : GameState) (now : ℚ) : GameState × List String :=
  s.update_economy (s.time_since_last_update now) now

/-- The achievement predicates, exactly the three lambdas bound in
`init_achievements` (lines 240-259), dispatched by achievement name; no
other condition callable exists in the program (achievements loaded from a
save keep the catalog objects, see `_load_achievements`). -/
def achCondition (n : String) (s : GameState) : Bool :=
  if n = "Quantum Pioneer" then s.particles.any fun kv => decide (0 < kv.2.count)
  else if n = "Particle Magnate" then
    decide (50 ≤ (s.particles.map fun kv => kv.2.count).sum)
  else if n = "Master of Energy" then decide (1000000 ≤ s.total_earnings)
  else false

/-- The loop of `GameState.check_achievements` (lines 391-397): scan the
achievement list in order; at the first locked achievement whose condition
holds, set its flag, multiply the prestige bonus by its reward and stop.
Returns the new list, the new bonus and the achievement returned. -/
def checkAchLoop (s : GameState) : List Achievement → List Achievement × ℚ × Option Achievement
  | [] => ([], s.prestige_bonus, none)
  | a :: rest =>
    if a.unlocked = false ∧ achCondition a.name s then
      ({ a with unlocked := true } :: rest, s.prestige_bonus * a.reward,
        some { a with unlocked := true })
    else
      let r := checkAchLoop s rest
      (a :: r.1, r.2.1, r.2.2)

/-- Embeds `GameState.check_achievements`. -/
def GameState.check_achievements (s : GameState) : GameState × Option Achievement :=
  let r := checkAchLoop s s.achievements
  ({ s with achievements := r.1, prestige_bonus := r.2.1 }, r.2.2)

/-- Outcome of a click on a particle's buy button in `GameUI.handle_click`
(lines 742-754): a locked particle is skipped silently (`continue`, no
message); an unaffordable one gets the not-enough-funds error message; a
successful purchase gets the acquired message. -/
inductive BuyMsg where
  | acquired
  | notEnoughFunds
  | silent
deriving Repr, DecidableEq

/-- Embeds the particle-purchase branch of `GameUI.handle_click`
(lines 742-754) for a click on the buy button of particle `k`: check the
unlock flag, compare `cash` with `calculate_cost`, debit and increment the
count by one on success.  A key with no button (`k` not in the dict) is
also `silent`. -/
def GameState.buyParticle (s : GameState) (k : String) : GameState × BuyMsg :=
  match pget s.particles k with
  | none => (s, BuyMsg.silent)
  | some p =>
    if p.unlocked then
      let cost := p.calculate_cost
      if s.cash ≥ cost then
        ({ s with
            cash := s.cash - cost
            particles := pmodify s.particles k fun q => { q with count := q.count + 1 } },
          BuyMsg.acquired)
      else (s, BuyMsg.notEnoughFunds)
    else (s, BuyMsg.silent)

/-- Update of a particle's `base_production` field in place in the dict
(`self.particles[k].base_production = f(...)` in the source). -/
def pbase (ps : List (String × ParticleType)) (k : String) (f : ℚ → ℚ) :
    List (String × ParticleType) :=
  pmodify ps k fun p => { p with base_production := f p.base_production }

/-- Embeds `GameState.apply_upgrade_effect` (lines 200-217): when the
requirement particle exists, first record the upgrade name in its
`purchased_upgrades`, then apply the name-keyed effect table (only these
five names are tested in the source; any other name leaves production
untouched). -/
def GameState.apply_upgrade_effect (s : GameState) (u : Upgrade) : GameState :=
  match pget s.particles u.particle_requirement with
  | none => s
  | some _ =>
    let ps := pmodify s.particles u.particle_requirement
      (fun p => p.add_purchased_upgrade u.name)
    let s1 := { s with particles := ps }
    if u.name = "Quantum Computing" then
      { s1 with particles := pbase s1.particles u.particle_requirement (fun b => b * 2) }
    else if u.name = "Hyperspace Fabrication" then
      { s1 with particles := pbase s1.particles u.particle_requirement (fun _ => 3) }
    else if u.name = "Gamma Resonance" then
      { s1 with particles := pbase s1.particles u.particle_requirement (fun b => b * 4) }
    else if u.name = "Beta Booster" then
      { s1 with particles := pbase s1.particles "alpha" (fun b => b * (1.1 : ℚ)) }
    else if u.name = "Gamma Booster" then
      { s1 with particles := pbase s1.particles "beta" (fun b => b * (1.15 : ℚ)) }
    else s1

/-- Embeds `GameState.process_upgrade_purchase` (lines 219-237).  The
`upgrade` argument is an element of the state's upgrade lists mutated in
place in the source; the updated upgrade is returned as the second
component and the success flag as the third.  Note that this path does not
consult the requirement particle's `unlocked` flag. -/
def GameState.process_upgrade_purchase (s : GameState) (u : Upgrade) :
    GameState × Upgrade × Bool :=
  if u.unlocked then (s, u, false)
  else if u.currency = "cash" then
    if s.cash < u.cost then (s, u, false)
    else
      let s1 := { s with cash := s.cash - u.cost }
      (s1.apply_upgrade_effect u, { u with unlocked := true }, true)
  else
    match pget s.particles u.currency with
    | none => (s, u, false)
    | some p =>
      if p.count < u.cost then (s, u, false)
      else
        let ps := pmodify s.particles u.currency
          (fun q => { q with count := q.count - u.cost })
        let s1 := { s with particles := ps }
        (s1.apply_upgrade_effect u, { u with unlocked := true }, true)

/-- The effect callables bound to the catalog upgrades in `init_upgrades`
(`apply_quantum_computing` ... `apply_gamma_booster`, lines 323-336),
dispatched by upgrade name; the catalog binds exactly these five, and any
other name has no effect callable in the program.  Note that
`apply_hyperspace_fabrication` multiplies beta's base production by 3,
unlike the `apply_upgrade_effect` table which sets it to 3.0. -/
def GameState.ui_upgrade_effect (s : GameState) (n : String) : GameState :=
  if n = "Quantum Computing" then
    { s with particles := pbase s.particles "alpha" (fun b => b * 2) }
  else if n = "Hyperspace Fabrication" then
    { s with particles := pbase s.particles "beta" (fun b => b * 3) }
  else if n = "Gamma Resonance" then
    { s with particles := pbase s.particles "gamma" (fun b => b * 4) }
  else if n = "Beta Booster" then
    { s with particles := pbase s.particles "alpha" (fun b => b * (1.1 : ℚ)) }
  else if n = "Gamma Booster" then
    { s with particles := pbase s.particles "beta" (fun b => b * (1.15 : ℚ)) }
  else s

/-- Outcome of a click on an upgrade button in
`GameUI.process_upgrade_click`: `purchased` (success message), `notAfford`
(error message), or `skipped` (no interaction: unknown or locked
requirement particle, already-purchased upgrade, or unknown cost
currency). -/
inductive ClickResult where
  | purchased
  | notAfford
  | skipped
deriving Repr, DecidableEq

/-- Embeds `GameUI.process_upgrade_click` (lines 776-812) for a click on
the button of upgrade `u`: requires the requirement particle to exist and
be unlocked and the upgrade to be unpurchased; checks affordability against
`cash` or the cost-currency particle's count; on success debits, runs the
upgrade's bound effect callable and sets the purchased flag.  The updated
upgrade object is the second component. -/
def GameState.process_upgrade_click (s : GameState) (u : Upgrade) :
    GameState × Upgrade × ClickResult :=
  match pget s.particles u.particle_requirement with
  | none => (s, u, ClickResult.skipped)
  | some rp =>
    if rp.unlocked = false then (s, u, ClickResult.skipped)
    else if u.unlocked then (s, u, ClickResult.skipped)
    else if u.currency = "cash" then
      if s.cash ≥ u.cost then
        (({ s with cash := s.cash - u.cost }).ui_upgrade_effect u.name,
          { u with unlocked := true }, ClickResult.purchased)
      else (s, u, ClickResult.notAfford)
    else
      match pget s.particles u.currency with
      | none => (s, u, ClickResult.skipped)
      | some cp =>
        if cp.count ≥ u.cost then
          let ps := pmodify s.particles u.currency
            (fun q => { q with count := q.count - u.cost })
          (({ s with particles := ps }).ui_upgrade_effect u.name,
            { u with unlocked := true }, ClickResult.purchased)
        else (s, u, ClickResult.notAfford)

/-- The alpha particle as constructed by `init_particles` (lines 167-176),
before `init_upgrades` registers upgrade names. -/
def alphaInit : ParticleType :=
  { name := "Alpha", base_cost := 10, cost_growth := 1.15, base_production := 1
    produces := "cash", color := (100, 200, 255), count := 0
    upgrades := ["Quantum Alignment", "Entanglement Boost"]
    description := "Basic quantum particle, stable and reliable."
    unlocked := true, purchased_upgrades := [] }

/-- The beta particle of `init_particles` (lines 177-187): zero base
production, locked. -/
def betaInit : ParticleType :=
  { name := "Beta", base_cost := 50, cost_growth := 1.2, base_production := 0
    produces := "beta", color := (255, 150, 100), count := 0
    upgrades := ["Tachyon Acceleration", "Chronal Syncing"]
    description := "Generates Beta particles which boost Alpha production via upgrades."
    unlocked := false, purchased_upgrades := [] }

/-- The gamma particle of `init_particles` (lines 188-197). -/
def gammaInit : ParticleType :=
  { name := "Gamma", base_cost := 250, cost_growth := 1.25, base_production := 10
    produces := "gamma", color := (150, 255, 100), count := 0
    upgrades := []
    description := "Highly energetic particle used to boost Beta production."
    unlocked := false, purchased_upgrades := [] }

/-- The catalog upgrades of `init_upgrades` (lines 262-290). -/
def quantumComputing : Upgrade :=
  { name := "Quantum Computing", cost := 100, cost_growth := 1.5
    description := "Doubles Alpha particle production"
    particle_requirement := "alpha", currency := "cash", unlocked := false }

def hyperspaceFabrication : Upgrade :=
  { name := "Hyperspace Fabrication", cost := 500, cost_growth := 1.8
    description := "Triples Beta particle output"
    particle_requirement := "beta", currency := "cash", unlocked := false }

def gammaResonance : Upgrade :=
  { name := "Gamma Resonance", cost := 2500, cost_growth := 2.0
    description := "Quadruples Gamma particle output"
    particle_requirement := "gamma", currency := "cash", unlocked := false }

/-- The booster upgrades of `init_upgrades` (lines 292-311); their cost
currency is a particle count, not cash. -/
def betaBooster : Upgrade :=
  { name := "Beta Booster", cost := 10, cost_growth := 1.2
    description := "Boosts Alpha particle production by 10%"
    particle_requirement := "beta", currency := "beta", unlocked := false }

def gammaBooster : Upgrade :=
  { name := "Gamma Booster", cost := 50, cost_growth := 1.3
    description := "Boosts Beta particle production by 15%"
    particle_requirement := "gamma", currency := "gamma", unlocked := false }

/-- The registration loop at the end of `init_upgrades` (lines 313-321):
each catalog upgrade's name is appended to its requirement particle's
`upgrades` list when absent (a missing requirement particle only prints a
warning). -/
def registerUpgradeName (ps : List (String × ParticleType)) (u : Upgrade) :
    List (String × ParticleType) :=
  match pget ps u.particle_requirement with
  | none => ps
  | some _ =>
    pmodify ps u.particle_requirement fun p =>
      if u.name ∈ p.upgrades then p else { p with upgrades := p.upgrades ++ [u.name] }

/-- The particle dict after `GameState.__init__` has run `init_particles`
followed by `init_upgrades`' registration loop. -/
def initParticles : List (String × ParticleType) :=
  [quantumComputing, hyperspaceFabrication, gammaResonance, betaBooster, gammaBooster].foldl
    registerUpgradeName
    [("alpha", alphaInit), ("beta", betaInit), ("gamma", gammaInit)]

/-- The achievement catalog of `init_achievements` (lines 240-259). -/
def initAchievements : List Achievement :=
  [{ name := "Quantum Pioneer", description := "Produce your first Alpha particle"
     reward := 1.1, unlocked := false },
   { name := "Particle Magnate", description := "Own 50 total particles"
     reward := 1.2, unlocked := false },
   { name := "Master of Energy", description := "Reach $1,000,000 total earnings"
     reward := 1.5, unlocked := false }]

/-- A fresh `GameState()` (lines 154-163) whose construction time is
`now0`: 50 cash, prestige level 0, bonus 1, no earnings, the catalog
particles, upgrades and achievements. -/
def initGameState (now0 : ℚ) : GameState :=
  { cash := 50, prestige_level := 0, prestige_bonus := 1, last_update := now0
    total_earnings := 0, particles := initParticles
    upgrades := [quantumComputing, hyperspaceFabrication, gammaResonance]
    booster_upgrades := [betaBooster, gammaBooster]
    achievements := initAchievements }

/-- The JSON object produced for one particle by `ParticleType.to_dict`
(lines 71-85); every field of the dataclass is written. -/
structure PDict where
  name : String
  base_cost : ℚ
  cost_growth : ℚ
  base_production : ℚ
  produces : String
  color : ℕ × ℕ × ℕ
  count : ℚ
  upgrades : List String
  description : String
  unlocked : Bool
  purchased_upgrades : List String
deriving Repr, DecidableEq

def ParticleType.to_dict (p : ParticleType) : PDict :=
  { name := p.name, base_cost := p.base_cost, cost_growth := p.cost_growth
    base_production := p.base_production, produces := p.produces, color := p.color
    count := p.count, upgrades := p.upgrades, description := p.description
    unlocked := p.unlocked, purchased_upgrades := p.purchased_upgrades }

/-- Embeds `ParticleType.from_dict` (lines 87-102).  The source supplies
defaults for `upgrades`, `description`, `unlocked` and
`purchased_upgrades` when the keys are absent; `to_dict` always writes
them, so the embedding reads every field. -/
def ParticleType.from_dict (d : PDict) : ParticleType :=
  { name := d.name, base_cost := d.base_cost, cost_growth := d.cost_growth
    base_production := d.base_production, produces := d.produces, color := d.color
    count := d.count, upgrades := d.upgrades, description := d.description
    unlocked := d.unlocked, purchased_upgrades := d.purchased_upgrades }

/-- The JSON object produced for one upgrade by `Upgrade.to_dict`
(lines 142-151); the `effect` callable is not persisted. -/
structure UDict where
  name : String
  cost : ℚ
  cost_growth : ℚ
  description : String
  particle_requirement : String
  currency : String
  unlocked : Bool
deriving Repr, DecidableEq

def Upgrade.to_dict (u : Upgrade) : UDict :=
  { name := u.name, cost := u.cost, cost_growth := u.cost_growth
    description := u.description, particle_requirement := u.particle_requirement
    currency := u.currency, unlocked := u.unlocked }

/-- The JSON object produced for one achievement by `Achievement.to_dict`
(lines 113-119); the condition callable is not persisted. -/
structure ADict where
  name : String
  description : String
  reward : ℚ
  unlocked : Bool
deriving Repr, DecidableEq

def Achievement.to_dict (a : Achievement) : ADict :=
  { name := a.name, description := a.description, reward := a.reward
    unlocked := a.unlocked }

/-- The JSON save object built by `GameState.to_dict` (lines 436-447). -/
structure SaveDict where
  cash : ℚ
  prestige_level : ℤ
  prestige_bonus : ℚ
  last_update : ℚ
  total_earnings : ℚ
  particles : List (String × PDict)
  upgrades : List UDict
  booster_upgrades : List UDict
  achievements : List ADict
deriving Repr, DecidableEq

def GameState.to_dict (s : GameState) : SaveDict :=
  { cash := s.cash, prestige_level := s.prestige_level
    prestige_bonus := s.prestige_bonus, last_update := s.last_update
    total_earnings := s.total_earnings
    particles := s.particles.map fun kv => (kv.1, kv.2.to_dict)
    upgrades := s.upgrades.map Upgrade.to_dict
    booster_upgrades := s.booster_upgrades.map Upgrade.to_dict
    achievements := s.achievements.map Achievement.to_dict }

/-- The default particles of `ensure_default_particles` (lines 399-431);
note they differ from `init_particles` for beta (base production 3.0, no
upgrade names, different description). -/
def defaultBeta : ParticleType :=
  { name := "Beta", base_cost := 50, cost_growth := 1.2, base_production := 3
    produces := "beta", color := (255, 150, 100), count := 0
    upgrades := []
    description := "Advanced particle used to boost Alpha production via upgrades."
    unlocked := false, purchased_upgrades := [] }

/-- Embeds `GameState.ensure_default_particles` (lines 399-434): any of the
three catalog keys missing from the dict is added (at the end, in
alpha/beta/gamma order, matching Python dict insertion). -/
def ensure_default_particles (ps : List (String × ParticleType)) :
    List (String × ParticleType) :=
  let add := fun (acc : List (String × ParticleType)) (kv : String × ParticleType) =>
    match pget acc kv.1 with
    | some _ => acc
    | none => acc ++ [kv]
  [("alpha", alphaInit), ("beta", defaultBeta), ("gamma", gammaInit)].foldl add ps

/-- One step of `GameState._load_upgrades` (lines 491-496): set the
`unlocked` flag of the first catalog upgrade with the saved name. -/
def setUnlockedFirst : List Upgrade → String → Bool → List Upgrade
  | [], _, _ => []
  | u :: rest, n, b =>
    if u.name = n then { u with unlocked := b } :: rest
    else u :: setUnlockedFirst rest n b

def load_upgrades (saved : List UDict) (current : List Upgrade) : List Upgrade :=
  saved.foldl (fun acc sd => setUnlockedFirst acc sd.name sd.unlocked) current

/-- One step of `GameState._load_achievements` (lines 498-503). -/
def setAchUnlockedFirst : List Achievement → String → Bool → List Achievement
  | [], _, _ => []
  | a :: rest, n, b =>
    if a.name = n then { a with unlocked := b } :: rest
    else a :: setAchUnlockedFirst rest n b

def load_achievements (saved : List ADict) (current : List Achievement) : List Achievement :=
  saved.foldl (fun acc sd => setAchUnlockedFirst acc sd.name sd.unlocked) current

/-- Embeds the body of `GameState.load` (lines 457-489) applied to a parsed
save object `d` at wall-clock time `now`, on the receiver state `g` (in the
program, a fresh `GameState()`).  Scalars and particles are taken from the
save; `last_update` is set to `time.time()`, not to the saved value; the
upgrade and achievement catalogs of `g` only get their `unlocked` flags
from the save. -/
def GameState.load (g : GameState) (d : SaveDict) (now : ℚ) : GameState :=
  { cash := d.cash, prestige_level := d.prestige_level
    prestige_bonus := d.prestige_bonus, total_earnings := d.total_earnings
    last_update := now
    particles := ensure_default_particles
      (d.particles.map fun kv => (kv.1, ParticleType.from_dict kv.2))
    upgrades := load_upgrades d.upgrades g.upgrades
    booster_upgrades := load_upgrades d.booster_upgrades g.booster_upgrades
    achievements := load_achievements d.achievements g.achievements }

/-- A run of the economy: the render loop calls `update_economy` once per
frame; `advanceRun` folds a list of (elapsed time, wall-clock time) ticks
and concatenates the unlock messages of all ticks. -/
def advanceRun (s : GameState) : List (ℚ × ℚ) → GameState × List String
  | [] => (s, [])
  | t :: rest =>
    let r := s.update_economy t.1 t.2
    let r2 := advanceRun r.1 rest
    (r2.1, r.2 ++ r2.2)

/-- A state with the catalog's production topology
(alpha → cash, beta → beta, gamma → gamma from `init_particles`) and
arbitrary contents everywhere else. -/
def catalogState (cash : ℚ) (lvl : ℤ) (bonus lu earn : ℚ) (pa pb pg : ParticleType)
    (us bs : List Upgrade) (ach : List Achievement) : GameState :=
  { cash := cash, prestige_level := lvl, prestige_bonus := bonus, last_update := lu
    total_earnings := earn
    particles := [("alpha", pa), ("beta", pb), ("gamma", pg)]
    upgrades := us, booster_upgrades := bs, achievements := ach }

/-- The catalog upgrade list with given purchased flags (their only mutable
field). -/
def catalogUpgradesWith (b1 b2 b3 : Bool) : List Upgrade :=
  [{ quantumComputing with unlocked := b1 },
   { hyperspaceFabrication with unlocked := b2 },
   { gammaResonance with unlocked := b3 }]

/-- The booster upgrade list with given purchased flags. -/
def boosterUpgradesWith (b4 b5 : Bool) : List Upgrade :=
  [{ betaBooster with unlocked := b4 }, { gammaBooster with unlocked := b5 }]

/-- The achievement catalog with given unlocked flags. -/
def achievementsWith (c1 c2 c3 : Bool) : List Achievement :=
  [{ name := "Quantum Pioneer", description := "Produce your first Alpha particle"
     reward := 1.1, unlocked := c1 },
   { name := "Particle Magnate", description := "Own 50 total particles"
     reward := 1.2, unlocked := c2 },
   { name := "Master of Energy", description := "Reach $1,000,000 total earnings"
     reward := 1.5, unlocked := c3 }]

/-- The alpha particle as it sits in a fresh state, after `init_upgrades`
registered "Quantum Computing" in its `upgrades` list. -/
def alphaCat : ParticleType :=
  { alphaInit with
      upgrades := ["Quantum Alignment", "Entanglement Boost", "Quantum Computing"] }

/-- The beta particle of a fresh state, after name registration. -/
def betaCat : ParticleType :=
  { betaInit with
      upgrades := ["Tachyon Acceleration", "Chronal Syncing",
        "Hyperspace Fabrication", "Beta Booster"] }

/-- The gamma particle of a fresh state, after name registration. -/
def gammaCat : ParticleType :=
  { gammaInit with upgrades := ["Gamma Resonance", "Gamma Booster"] }

/-- A fresh state whose alpha count was set to `c` (and cash to `m`):
exercises production with `baseProduction = 1`, `prestigeMultiplier = 1`,
no purchased upgrades. -/
def alphaCountState (m c : ℚ) : GameState :=
  { initGameState 0 with
      cash := m
      particles := pmodify initParticles "alpha" (fun p => { p with count := c }) }

/-- A fresh state with `cash = 15.209` and `alpha.count = 3`: the exact
cost formula gives `10 * 1.15^3 = 15.20875 ≤ 15.209`, while the program's
rounded cost is `15.21`. -/
def roundCostState : GameState := alphaCountState (15.209 : ℚ) 3

/-- A fresh state with beta unlocked and 500 cash: Hyperspace Fabrication
is affordable on the UI purchase path. -/
def betaUnlockedState : GameState :=
  { initGameState 0 with
      cash := 500
      particles := pmodify initParticles "beta" (fun p => { p with unlocked := true }) }

/-- A state in which the first achievement has been unlocked and its 1.1
reward already folded into the prestige multiplier, with enough cash to
prestige. -/
def achievementPrestigeState : GameState :=
  { initGameState 0 with
      cash := 1000
      prestige_bonus := (1.1 : ℚ)
      achievements := achievementsWith true false false }

/-! ### Helper lemmas about the particle dict -/

theorem pget_pmodify (ps : List (String × ParticleType)) (k k' : String)
    (f : ParticleType → ParticleType) :
    pget (pmodify ps k f) k' =
      if k = k' then (pget ps k').map f else pget ps k' := by
  induction ps with
  | nil => simp [pget, pmodify]
  | cons hd tl ih =>
    obtain ⟨k₀, p₀⟩ := hd
    by_cases h₀ : k₀ = k
    · subst h₀
      by_cases h₁ : k₀ = k'
      · subst h₁; simp [pget, pmodify]
      · simp [pget, pmodify, h₁]
    · by_cases h₁ : k₀ = k'
      · subst h₁
        have hne : k ≠ k₀ := fun h => h₀ h.symm
        simp [pget, pmodify, h₀, hne]
      · simp [pget, pmodify, h₀, h₁, ih]

theorem pmodify_keys (ps : List (String × ParticleType)) (k : String)
    (f : ParticleType → ParticleType) :
    (pmodify ps k f).map Prod.fst = ps.map Prod.fst := by
  induction ps with
  | nil => rfl
  | cons hd tl ih =>
    obtain ⟨k₀, p₀⟩ := hd
    by_cases h₀ : k₀ = k <;> simp [pmodify, h₀, ih]

theorem pget_mapSnd (ps : List (String × ParticleType))
    (f : ParticleType → ParticleType) (k : String) :
    pget (ps.map fun kv => (kv.1, f kv.2)) k = (pget ps k).map f := by
  induction ps with
  | nil => rfl
  | cons hd tl ih =>
    obtain ⟨k₀, p₀⟩ := hd
    by_cases h : k₀ = k <;> simp [pget, h, ih]

/-- A field untouched by the update function is untouched by `pmodify`. -/
theorem map_field_pmodify {α : Type} (ps : List (String × ParticleType)) (k k' : String)
    (f : ParticleType → ParticleType) (field : ParticleType → α)
    (hf : ∀ p, field (f p) = field p) :
    (pget (pmodify ps k f) k').map field = (pget ps k').map field := by
  rw [pget_pmodify]
  split
  · cases pget ps k' <;> simp [hf]
  · rfl

/-- `initParticles` evaluated: the three catalog particles with the
registered upgrade names. -/
theorem initParticles_eq :
    initParticles = [("alpha", alphaCat), ("beta", betaCat), ("gamma", gammaCat)] := by
  with_unfolding_all decide

/-! ### Helper lemmas about `unlockChecks` -/

theorem unlockStep_cash (t : ℚ) (key msg : String) (e : ℚ) (acc : GameState × List String) :
    (unlockStep t key msg e acc).1.cash = acc.1.cash := by
  unfold unlockStep
  cases pget acc.1.particles key with
  | none => rfl
  | some p => dsimp only; split <;> rfl

theorem unlockStep_earnings (t : ℚ) (key msg : String) (e : ℚ)
    (acc : GameState × List String) :
    (unlockStep t key msg e acc).1.total_earnings = acc.1.total_earnings := by
  unfold unlockStep
  cases pget acc.1.particles key with
  | none => rfl
  | some p => dsimp only; split <;> rfl

theorem unlockStep_count (t : ℚ) (key msg : String) (e : ℚ)
    (acc : GameState × List String) (k : String) :
    (pget (unlockStep t key msg e acc).1.particles k).map ParticleType.count
      = (pget acc.1.particles k).map ParticleType.count := by
  unfold unlockStep
  cases pget acc.1.particles key with
  | none => rfl
  | some p =>
    dsimp only; split
    · exact map_field_pmodify _ _ _ _ _ (fun _ => rfl)
    · rfl

theorem unlockChecks_cash (s : GameState) : (unlockChecks s).1.cash = s.cash := by
  unfold unlockChecks
  rw [unlockStep_cash, unlockStep_cash]

theorem unlockChecks_earnings (s : GameState) :
    (unlockChecks s).1.total_earnings = s.total_earnings := by
  unfold unlockChecks
  rw [unlockStep_earnings, unlockStep_earnings]

theorem unlockChecks_count (s : GameState) (k : String) :
    (pget (unlockChecks s).1.particles k).map ParticleType.count
      = (pget s.particles k).map ParticleType.count := by
  unfold unlockChecks
  rw [unlockStep_count, unlockStep_count]

/-- Evaluation of the production loop of `update_economy` on any state with
the catalog's production topology (alpha → cash, beta → beta,
gamma → gamma): alpha's production is added to cash and to the lifetime
earnings, beta's and gamma's to their own rounded counts, each only while
unlocked; then the unlock thresholds are checked. -/
theorem update_economy_catalog (cash : ℚ) (lvl : ℤ) (bonus lu earn dt now : ℚ)
    (pa pb pg : ParticleType) (us bs : List Upgrade) (ach : List Achievement)
    (ha : pa.produces = "cash") (hb : pb.produces = "beta") (hg : pg.produces = "gamma") :
    (catalogState cash lvl bonus lu earn pa pb pg us bs ach).update_economy dt now
      = unlockChecks (catalogState
          (cash + (if pa.unlocked then pa.calculate_production_per_second bonus * dt else 0))
          lvl bonus now
          (earn + (if pa.unlocked then pa.calculate_production_per_second bonus * dt else 0))
          pa
          (if pb.unlocked
            then { pb with count := round2 (pb.count + pb.calculate_production_per_second bonus * dt) }
            else pb)
          (if pg.unlocked
            then { pg with count := round2 (pg.count + pg.calculate_production_per_second bonus * dt) }
            else pg)
          us bs ach) := by
  cases hpa : pa.unlocked <;> cases hpb : pb.unlocked <;> cases hpg : pg.unlocked <;>
    simp [GameState.update_economy, catalogState, econStep, pget, pmodify,
      ha, hb, hg, hpa, hpb, hpg]

/-- `alphaCountState` in catalog form. -/
theorem alphaCountState_eq (m c : ℚ) :
    alphaCountState m c
      = catalogState m 0 1 0 0 { alphaCat with count := c } betaCat gammaCat
          [quantumComputing, hyperspaceFabrication, gammaResonance]
          [betaBooster, gammaBooster] initAchievements := by
  have h1 : pmodify initParticles "alpha" (fun p => { p with count := c })
      = [("alpha", { alphaCat with count := c }), ("beta", betaCat), ("gamma", gammaCat)] := by
    rw [initParticles_eq]; simp [pmodify]
  unfold alphaCountState
  rw [h1]
  rfl

/-! ### C1 — the production formula -/

/-- C1: on any state with the catalog's production topology and any
`dt ≥ 0`, each unlocked resource produces
`count * baseProduction * prestigeMultiplier * 1.05^len(purchasedUpgradeIds) * dt`;
alpha (which produces the currency) adds it to cash and to `totalEarnings`,
beta and gamma add it to their own count, which is rounded to two decimal
places; locked resources produce nothing. -/
theorem c1_production_formula (cash : ℚ) (lvl : ℤ) (bonus lu earn dt now : ℚ)
    (pa pb pg : ParticleType) (us bs : List Upgrade) (ach : List Achievement)
    (ha : pa.produces = "cash") (hb : pb.produces = "beta") (hg : pg.produces = "gamma")
    (hdt : 0 ≤ dt) :
    (pa.calculate_production_per_second bonus
      = pa.count * pa.base_production * bonus * (1.05 : ℚ) ^ pa.purchased_upgrades.length) ∧
    (((catalogState cash lvl bonus lu earn pa pb pg us bs ach).update_economy dt now).1.cash
      = cash + (if pa.unlocked then pa.calculate_production_per_second bonus * dt else 0)) ∧
    (((catalogState cash lvl bonus lu earn pa pb pg us bs ach).update_economy dt
        now).1.total_earnings
      = earn + (if pa.unlocked then pa.calculate_production_per_second bonus * dt else 0)) ∧
    ((pget ((catalogState cash lvl bonus lu earn pa pb pg us bs ach).update_economy dt
        now).1.particles "alpha").map ParticleType.count = some pa.count) ∧
    ((pget ((catalogState cash lvl bonus lu earn pa pb pg us bs ach).update_economy dt
        now).1.particles "beta").map ParticleType.count
      = some (if pb.unlocked
          then round2 (pb.count + pb.calculate_production_per_second bonus * dt)
          else pb.count)) ∧
    ((pget ((catalogState cash lvl bonus lu earn pa pb pg us bs ach).update_economy dt
        now).1.particles "gamma").map ParticleType.count
      = some (if pg.unlocked
          then round2 (pg.count + pg.calculate_production_per_second bonus * dt)
          else pg.count)) := by
  have h := update_economy_catalog cash lvl bonus lu earn dt now pa pb pg us bs ach ha hb hg
  refine ⟨rfl, ?_, ?_, ?_, ?_, ?_⟩
  · rw [h, unlockChecks_cash]; rfl
  · rw [h, unlockChecks_earnings]; rfl
  · rw [h, unlockChecks_count]
    simp [catalogState, pget]
  · rw [h, unlockChecks_count]
    cases hpb : pb.unlocked <;> simp [catalogState, pget, hpb]
  · rw [h, unlockChecks_count]
    cases hpg : pg.unlocked <;> simp [catalogState, pget, hpg]

/-- Witness for C1: the spec scenario — `advance(dt=10)` with
`alpha.count = 1`, `baseProduction = 1`, `prestigeMultiplier = 1` and no
purchased upgrades adds exactly 10.0 to cash (50 → 60) and to
`totalEarnings` (0 → 10). -/
theorem c1_production_formula_witness :
    (0 : ℚ) ≤ 10 ∧
    ((alphaCountState 50 1).update_economy 10 7).1.cash = 60 ∧
    ((alphaCountState 50 1).update_economy 10 7).1.total_earnings = 10 := by
  have h := c1_production_formula 50 0 1 0 0 10 7 { alphaCat with count := 1 }
    betaCat gammaCat [quantumComputing, hyperspaceFabrication, gammaResonance]
    [betaBooster, gammaBooster] initAchievements rfl rfl rfl (by norm_num)
  rw [alphaCountState_eq]
  refine ⟨by norm_num, ?_, ?_⟩
  · rw [h.2.1]
    norm_num [alphaCat, alphaInit, ParticleType.calculate_production_per_second]
  · rw [h.2.2.1]
    norm_num [alphaCat, alphaInit, ParticleType.calculate_production_per_second]

/-! ### C10 — no clamping of the elapsed time -/

/-- C10 counterexample: `update_economy` with `dt = -10` on a state with
one alpha particle (cash 50) *decreases* cash to 40 — the engine does not
clamp `dt` into `[0, maxWindow]` as the claim asserts. -/
theorem c10_counterexample :
    ((alphaCountState 50 1).update_economy (-10) 0).1.cash = 40 ∧
    ((alphaCountState 50 1).update_economy (-10) 0).1.cash < (alphaCountState 50 1).cash := by
  constructor <;> with_unfolding_all decide

/-- C10 amended: `update_economy` applies whatever elapsed time it is given
(or the raw wall-clock difference) without clamping: on a state with one
alpha particle at base production 1 and multiplier 1, cash changes by
exactly `dt` and the lifetime earnings by `dt` for *every* `dt`, so a
negative `dt` strictly decreases cash; no bound is enforced and every call
returns normally. -/
theorem c10_no_clamping (m dt now : ℚ) :
    (((alphaCountState m 1).update_economy dt now).1.cash = m + dt) ∧
    (((alphaCountState m 1).update_economy dt now).1.total_earnings = dt) ∧
    ((alphaCountState m 1).update_economy_wallclock now
      = (alphaCountState m 1).update_economy now now) ∧
    (dt < 0 → ((alphaCountState m 1).update_economy dt now).1.cash < m) := by
  have hparts : pmodify initParticles "alpha" (fun p => { p with count := (1 : ℚ) })
      = [("alpha", { alphaCat with count := 1 }), ("beta", betaCat), ("gamma", gammaCat)] := by
    with_unfolding_all decide
  have hst : alphaCountState m 1
      = catalogState m 0 1 0 0 { alphaCat with count := 1 } betaCat gammaCat
          [quantumComputing, hyperspaceFabrication, gammaResonance]
          [betaBooster, gammaBooster] initAchievements := by
    simp only [alphaCountState, catalogState, initGameState, hparts]
  have h := update_economy_catalog m 0 1 0 0 dt now { alphaCat with count := 1 }
    betaCat gammaCat
    [quantumComputing, hyperspaceFabrication, gammaResonance]
    [betaBooster, gammaBooster] initAchievements rfl rfl rfl
  have hcash : ((alphaCountState m 1).update_economy dt now).1.cash = m + dt := by
    rw [hst, h, unlockChecks_cash]
    show m + (if ({ alphaCat with count := 1 } : ParticleType).unlocked
      then ({ alphaCat with count := 1 } : ParticleType).calculate_production_per_second 1 * dt
      else 0) = m + dt
    norm_num [alphaCat, alphaInit, ParticleType.calculate_production_per_second]
  have hearn : ((alphaCountState m 1).update_economy dt now).1.total_earnings = dt := by
    rw [hst, h, unlockChecks_earnings]
    show (0 : ℚ) + (if ({ alphaCat with count := 1 } : ParticleType).unlocked
      then ({ alphaCat with count := 1 } : ParticleType).calculate_production_per_second 1 * dt
      else 0) = dt
    norm_num [alphaCat, alphaInit, ParticleType.calculate_production_per_second]
  refine ⟨hcash, hearn, ?_, fun hdt => ?_⟩
  · show (alphaCountState m 1).update_economy
        ((alphaCountState m 1).time_since_last_update now) now
      = (alphaCountState m 1).update_economy now now
    have : (alphaCountState m 1).time_since_last_update now = now := by
      show now - (alphaCountState m 1).last_update = now
      rw [show (alphaCountState m 1).last_update = 0 from rfl]
      ring
    rw [this]
  · rw [hcash]; linarith

/-- Witness for C10's amended statement at `dt = -10`. -/
theorem c10_no_clamping_witness :
    ((-10 : ℚ) < 0) ∧ ((alphaCountState 50 1).update_economy (-10) 99).1.cash < 50 := by
  have h := c10_no_clamping 50 (-10) 99
  exact ⟨by norm_num, h.2.2.2 (by norm_num)⟩

/-! ### C4 — prestige -/

/-- C4: `performPrestige` succeeds iff `currency.count >= 1000`; on success
the level rises by 1, the multiplier is recomputed as `1 + 0.1 * level`,
cash is zeroed and every particle's count is reset to 0 while all its other
fields (`unlocked`, `purchased_upgrades`, ...) and the upgrade and
achievement lists are unchanged; on failure nothing changes. -/
theorem c4_perform_prestige (s : GameState) :
    ((s.perform_prestige).2 = true ↔ 1000 ≤ s.cash) ∧
    (1000 ≤ s.cash →
      (s.perform_prestige).1.prestige_level = s.prestige_level + 1 ∧
      (s.perform_prestige).1.prestige_bonus
        = 1 + (0.1 : ℚ) * ((s.prestige_level + 1 : ℤ) : ℚ) ∧
      (s.perform_prestige).1.cash = 0 ∧
      (∀ k, pget (s.perform_prestige).1.particles k
        = (pget s.particles k).map fun p => { p with count := 0 }) ∧
      (s.perform_prestige).1.upgrades = s.upgrades ∧
      (s.perform_prestige).1.booster_upgrades = s.booster_upgrades ∧
      (s.perform_prestige).1.achievements = s.achievements ∧
      (s.perform_prestige).1.total_earnings = s.total_earnings) ∧
    (s.cash < 1000 → s.perform_prestige = (s, false)) := by
  unfold GameState.perform_prestige
  by_cases h : (1000 : ℚ) ≤ s.cash
  · rw [if_pos (by exact h)]
    refine ⟨by simp [h],
      fun _ => ⟨rfl, rfl, rfl,
        fun k => pget_mapSnd s.particles (fun p => { p with count := 0 }) k, rfl, rfl, rfl, rfl⟩,
      fun hlt => absurd h (not_le.mpr hlt)⟩
  · rw [if_neg (by exact h)]
    exact ⟨by simp [h], fun h' => absurd h' h, fun _ => rfl⟩

/-- Witness for C4: the spec scenario — a fresh state with `cash = 1000`
and `prestigeLevel = 0` prestiges to level 1, multiplier 1.1, zero cash and
zero counts, with beta keeping its flags. -/
theorem c4_perform_prestige_witness :
    (1000 : ℚ) ≤ ({ initGameState 0 with cash := 1000 } : GameState).cash ∧
    (({ initGameState 0 with cash := 1000 } : GameState).perform_prestige).2 = true ∧
    (({ initGameState 0 with cash := 1000 } : GameState).perform_prestige).1.prestige_level = 1 ∧
    (({ initGameState 0 with cash := 1000 } : GameState).perform_prestige).1.prestige_bonus
      = (1.1 : ℚ) ∧
    (({ initGameState 0 with cash := 1000 } : GameState).perform_prestige).1.cash = 0 ∧
    pget (({ initGameState 0 with cash := 1000 } : GameState).perform_prestige).1.particles
      "beta" = some { betaCat with count := 0 } := by
  have h := c4_perform_prestige { initGameState 0 with cash := 1000 }
  have hc : (1000 : ℚ) ≤ ({ initGameState 0 with cash := 1000 } : GameState).cash := by
    norm_num
  obtain ⟨h1, h2, h3, h4, h5, h6, h7, h8⟩ := h.2.1 hc
  refine ⟨hc, h.1.mpr hc, ?_, ?_, h3, ?_⟩
  · rw [h1]; rfl
  · rw [h2]; norm_num [initGameState]
  · rw [h4 "beta"]
    rw [show ({ initGameState 0 with cash := 1000 } : GameState).particles = initParticles
      from rfl, initParticles_eq]
    rfl

/-! ### C2 — buying a particle -/

set_option maxRecDepth 2048 in
/-- C2 counterexample, refuting two parts of the claim as stated.
(1) Buying the locked "beta" on a fresh state fails with *no* reported
reason (the source's `handle_click` hits `continue` without any message),
while the claim promises a specific `resource-locked` reason.
(2) On a fresh state with `alpha.count = 3` and `cash = 15.209`, the exact
cost `10 * 1.15^3 = 15.20875` is affordable, so the claim says the purchase
succeeds — but the code compares against the *rounded* cost
`round(15.20875, 2) = 15.21` and fails. -/
theorem c2_counterexample :
    ((initGameState 0).buyParticle "beta" = (initGameState 0, BuyMsg.silent)) ∧
    ((10 : ℚ) * (1.15 : ℚ) ^ (3 : ℕ) ≤ roundCostState.cash) ∧
    (roundCostState.buyParticle "alpha" = (roundCostState, BuyMsg.notEnoughFunds)) := by
  have hb : pget (initGameState 0).particles "beta" = some betaCat := by
    show pget initParticles "beta" = some betaCat
    rw [initParticles_eq]; simp [pget]
  have hp : pget roundCostState.particles "alpha" = some { alphaCat with count := 3 } := by
    show pget (alphaCountState (15.209 : ℚ) 3).particles "alpha" = _
    rw [alphaCountState_eq]
    simp [catalogState, pget]
  have hcost : ({ alphaCat with count := 3 } : ParticleType).calculate_cost = 15.21 := by
    with_unfolding_all decide
  have hlt : ¬(roundCostState.cash
      ≥ ({ alphaCat with count := 3 } : ParticleType).calculate_cost) := by
    rw [hcost]; with_unfolding_all decide
  refine ⟨?_, by with_unfolding_all decide, ?_⟩
  · simp only [GameState.buyParticle, hb, show betaCat.unlocked = false from rfl,
      Bool.false_eq_true, if_false]
  · simp only [GameState.buyParticle, hp, show alphaCat.unlocked = true from rfl, if_true]
    split_ifs with hcc
    · exact absurd hcc hlt
    · rfl

/-- C2 amended: buying resource `k` succeeds iff it exists, is unlocked,
and `cash ≥ round2(baseCost * costGrowth^min(count, 1000))` (the code
rounds the cost to two decimals and clamps the exponent at 1000); on
success it debits exactly that rounded cost and increments the count by
exactly 1; on insufficient funds the state is unchanged and a
not-enough-funds reason is reported; on a locked resource the state is
unchanged and the click is skipped *silently* (no reason).  The cost
formula is stated for integral counts (`count = n`), since the float power
at a non-integral count has no exact rational counterpart. -/
theorem c2_buy_resource (s : GameState) (k : String) (p : ParticleType) (n : ℕ)
    (hp : pget s.particles k = some p) (hn : p.count = (n : ℚ)) :
    (p.calculate_cost = round2 (p.base_cost * p.cost_growth ^ (min n 1000))) ∧
    (p.unlocked = true → p.calculate_cost ≤ s.cash →
      s.buyParticle k
        = ({ s with
              cash := s.cash - p.calculate_cost
              particles := pmodify s.particles k fun q => { q with count := q.count + 1 } },
            BuyMsg.acquired)) ∧
    (p.unlocked = true → s.cash < p.calculate_cost →
      s.buyParticle k = (s, BuyMsg.notEnoughFunds)) ∧
    (p.unlocked = false → s.buyParticle k = (s, BuyMsg.silent)) := by
  refine ⟨?_, ?_, ?_, ?_⟩
  · show round2 (p.base_cost * p.cost_growth ^ (if p.count > 1000 then (1000 : ℚ)
      else p.count).num) = _
    rw [hn]
    by_cases hgt : (1000 : ℕ) < n
    · have hq : ((n : ℚ)) > 1000 := by exact_mod_cast hgt
      rw [if_pos hq, min_eq_right (le_of_lt hgt),
        show ((1000 : ℚ)).num = ((1000 : ℕ) : ℤ) from rfl, zpow_natCast]
    · have hle : n ≤ 1000 := le_of_not_lt hgt
      have hq : ¬((n : ℚ) > 1000) := by push_neg; exact_mod_cast hle
      rw [if_neg hq, min_eq_left hle, Rat.num_natCast, zpow_natCast]
  · intro hu hcost
    simp only [GameState.buyParticle, hp, hu, if_true]
    rw [if_pos (by exact hcost)]
  · intro hu hcost
    simp only [GameState.buyParticle, hp, hu, if_true]
    rw [if_neg (by exact not_le.mpr hcost)]
  · intro hu
    simp only [GameState.buyParticle, hp, hu, Bool.false_eq_true, if_false]

/-- Witness for C2's amended statement: the spec scenario — on a fresh
state (`cash = 50`), buying "alpha" at cost `10 * 1.15^0 = 10` succeeds,
leaving `cash = 40` and `alpha.count = 1`. -/
theorem c2_buy_resource_witness :
    ((initGameState 0).buyParticle "alpha").2 = BuyMsg.acquired ∧
    ((initGameState 0).buyParticle "alpha").1.cash = 40 ∧
    (pget ((initGameState 0).buyParticle "alpha").1.particles "alpha").map ParticleType.count
      = some 1 ∧
    alphaCat.calculate_cost = 10 := by
  have hp : pget (initGameState 0).particles "alpha" = some alphaCat := by
    with_unfolding_all decide
  have h := c2_buy_resource (initGameState 0) "alpha" alphaCat 0 hp
    (by with_unfolding_all decide)
  have hcost : alphaCat.calculate_cost = 10 := by with_unfolding_all decide
  have hsucc := h.2.1 (by with_unfolding_all decide)
    (by rw [hcost]; with_unfolding_all decide)
  rw [hsucc]
  refine ⟨rfl, by with_unfolding_all decide, by with_unfolding_all decide, hcost⟩

/-! ### C9 — prestige vs achievement multipliers -/

/-- C9 counterexample: on a state whose unlocked achievement reward 1.1 is
already folded into the multiplier, a successful prestige from level 0
leaves the multiplier at `1 + 0.1 * 1 = 1.1`, not at
`(1 + 0.1 * 1) * 1.1 = 1.21` as the claim asserts. -/
theorem c9_counterexample :
    (achievementPrestigeState.perform_prestige).2 = true ∧
    (achievementPrestigeState.perform_prestige).1.prestige_bonus = (1.1 : ℚ) ∧
    (achievementPrestigeState.perform_prestige).1.prestige_bonus
      ≠ (1 + (0.1 : ℚ) * 1) * (1.1 : ℚ) := by
  refine ⟨by with_unfolding_all decide, by with_unfolding_all decide, by with_unfolding_all decide⟩

/-- C9 amended: a successful `performPrestige` recomputes the multiplier as
exactly `1 + 0.1 * newPrestigeLevel`, discarding any achievement reward
factors previously folded in (the achievement records themselves, including
their unlocked flags, are untouched). -/
theorem c9_prestige_discards_achievements (s : GameState) (h : 1000 ≤ s.cash) :
    (s.perform_prestige).1.prestige_bonus
      = 1 + (0.1 : ℚ) * ((s.prestige_level + 1 : ℤ) : ℚ) ∧
    (s.perform_prestige).1.achievements = s.achievements := by
  unfold GameState.perform_prestige
  rw [if_pos (by exact h)]
  exact ⟨rfl, rfl⟩

/-- Witness for C9's amended statement at the counterexample state. -/
theorem c9_prestige_discards_achievements_witness :
    (1000 : ℚ) ≤ achievementPrestigeState.cash ∧
    (achievementPrestigeState.perform_prestige).1.prestige_bonus = (1.1 : ℚ) := by
  have hc : (1000 : ℚ) ≤ achievementPrestigeState.cash := by with_unfolding_all decide
  have h := c9_prestige_discards_achievements achievementPrestigeState hc
  refine ⟨hc, h.1.trans ?_⟩
  norm_num [achievementPrestigeState, initGameState]

/-! ### C6 — the upgrade effect table -/

set_option maxRecDepth 2048 in
/-- C6: the claim's effect table says Hyperspace Fabrication *sets*
`beta.baseProduction` to 3.0 on every purchase path, but on the only
reachable path — the UI click handler, whose bound effect callable is
`apply_hyperspace_fabrication` — it *multiplies* beta's production by 3.
Since beta starts at 0.0 and no other code gives it a nonzero base rate,
the purchase leaves beta's production at 0 forever: with beta unlocked and
500 cash the click purchase succeeds yet `beta.base_production` stays 0,
while the (uncalled) `apply_upgrade_effect` table does set it to 3, exactly
as its source comment ("Set initial production for Beta") intends. -/
theorem c6_hyperspace_fabrication_bug :
    ((betaUnlockedState.process_upgrade_click hyperspaceFabrication).2.2
      = ClickResult.purchased) ∧
    ((pget (betaUnlockedState.process_upgrade_click hyperspaceFabrication).1.particles
        "beta").map ParticleType.base_production = some 0) ∧
    ((pget (betaUnlockedState.apply_upgrade_effect hyperspaceFabrication).particles
        "beta").map ParticleType.base_production = some 3) := by
  have hps : betaUnlockedState.particles
      = [("alpha", alphaCat), ("beta", { betaCat with unlocked := true }),
         ("gamma", gammaCat)] := by
    show pmodify initParticles "beta" _ = _
    rw [initParticles_eq]; simp [pmodify]
  have hrp : pget betaUnlockedState.particles "beta"
      = some { betaCat with unlocked := true } := by
    rw [hps]; simp [pget]
  have hafford : betaUnlockedState.cash ≥ hyperspaceFabrication.cost := by
    with_unfolding_all decide
  have hclick : betaUnlockedState.process_upgrade_click hyperspaceFabrication
      = (({ betaUnlockedState with
            cash := betaUnlockedState.cash - hyperspaceFabrication.cost
          } : GameState).ui_upgrade_effect "Hyperspace Fabrication",
         { hyperspaceFabrication with unlocked := true }, ClickResult.purchased) := by
    simp only [GameState.process_upgrade_click,
      show hyperspaceFabrication.particle_requirement = "beta" from rfl, hrp,
      show hyperspaceFabrication.currency = "cash" from rfl,
      show hyperspaceFabrication.unlocked = false from rfl,
      Bool.false_eq_true, if_false]
    simp only [show ({ betaCat with unlocked := true } : ParticleType).unlocked = true
      from rfl, Bool.true_eq_false, if_false, if_pos hafford]
    rfl
  refine ⟨by rw [hclick], ?_, ?_⟩
  · rw [hclick]
    simp only [GameState.ui_upgrade_effect, String.reduceEq, if_false, if_true, reduceIte]
    rw [show ({ betaUnlockedState with
          cash := betaUnlockedState.cash - hyperspaceFabrication.cost
        } : GameState).particles = betaUnlockedState.particles from rfl, hps]
    simp [pbase, pmodify, pget, betaCat, betaInit]
  · simp only [GameState.apply_upgrade_effect,
      show hyperspaceFabrication.particle_requirement = "beta" from rfl, hrp,
      show hyperspaceFabrication.name = "Hyperspace Fabrication" from rfl,
      String.reduceEq, if_false, reduceIte]
    rw [hps]
    simp [pbase, pmodify, pget, ParticleType.add_purchased_upgrade, betaCat, betaInit]

/-! ### C3 — upgrade purchase paths -/

theorem add_purchased_upgrade_count (p : ParticleType) (n : String) :
    (p.add_purchased_upgrade n).count = p.count := by
  unfold ParticleType.add_purchased_upgrade; split <;> rfl

theorem add_purchased_upgrade_base (p : ParticleType) (n : String) :
    (p.add_purchased_upgrade n).base_production = p.base_production := by
  unfold ParticleType.add_purchased_upgrade; split <;> rfl

/-- The name-keyed effect table only rescales `base_production`:
every scalar field of the state is untouched. -/
theorem apply_upgrade_effect_scalars (s : GameState) (u : Upgrade) :
    (s.apply_upgrade_effect u).cash = s.cash ∧
    (s.apply_upgrade_effect u).prestige_level = s.prestige_level ∧
    (s.apply_upgrade_effect u).prestige_bonus = s.prestige_bonus ∧
    (s.apply_upgrade_effect u).total_earnings = s.total_earnings ∧
    (s.apply_upgrade_effect u).upgrades = s.upgrades ∧
    (s.apply_upgrade_effect u).booster_upgrades = s.booster_upgrades ∧
    (s.apply_upgrade_effect u).achievements = s.achievements := by
  unfold GameState.apply_upgrade_effect
  cases pget s.particles u.particle_requirement with
  | none => exact ⟨rfl, rfl, rfl, rfl, rfl, rfl, rfl⟩
  | some p => dsimp only; split_ifs <;> exact ⟨rfl, rfl, rfl, rfl, rfl, rfl, rfl⟩

/-- `apply_upgrade_effect` never changes any particle's `count`. -/
theorem apply_upgrade_effect_count (s : GameState) (u : Upgrade) (k : String) :
    (pget (s.apply_upgrade_effect u).particles k).map ParticleType.count
      = (pget s.particles k).map ParticleType.count := by
  unfold GameState.apply_upgrade_effect
  cases pget s.particles u.particle_requirement with
  | none => rfl
  | some p =>
    dsimp only
    split_ifs <;> simp only [pbase] <;>
      first
        | (refine (map_field_pmodify _ _ _ _ _ ?_).trans (map_field_pmodify _ _ _ _ _ ?_) <;>
            first
              | exact fun q => rfl
              | exact fun q => add_purchased_upgrade_count q u.name)
        | exact map_field_pmodify _ _ _ _ _ (fun q => add_purchased_upgrade_count q u.name)

/-- `apply_upgrade_effect` records the upgrade name in the requirement
particle's `purchased_upgrades` (via `add_purchased_upgrade`). -/
theorem apply_upgrade_effect_purchased (s : GameState) (u : Upgrade) (p : ParticleType)
    (hreq : pget s.particles u.particle_requirement = some p) :
    (pget (s.apply_upgrade_effect u).particles u.particle_requirement).map
        ParticleType.purchased_upgrades
      = some (p.add_purchased_upgrade u.name).purchased_upgrades := by
  have hmid : ∀ ps' : List (String × ParticleType),
      (pget ps' u.particle_requirement).map ParticleType.purchased_upgrades
        = some (p.add_purchased_upgrade u.name).purchased_upgrades →
      ∀ key f, (pget (pbase ps' key f) u.particle_requirement).map
          ParticleType.purchased_upgrades
        = some (p.add_purchased_upgrade u.name).purchased_upgrades := by
    intro ps' h key f
    rw [pbase]
    refine (map_field_pmodify _ _ _ _ _ ?_).trans h
    exact fun q => rfl
  have hbase : (pget (pmodify s.particles u.particle_requirement
        (fun q => q.add_purchased_upgrade u.name)) u.particle_requirement).map
        ParticleType.purchased_upgrades
      = some (p.add_purchased_upgrade u.name).purchased_upgrades := by
    rw [pget_pmodify, if_pos rfl, hreq]
    rfl
  unfold GameState.apply_upgrade_effect
  rw [hreq]
  dsimp only
  split_ifs <;> dsimp only <;> first
    | exact hmid _ hbase _ _
    | exact hbase

/-- The UI's bound effect callables only rescale `base_production`. -/
theorem ui_upgrade_effect_scalars (s : GameState) (n : String) :
    (s.ui_upgrade_effect n).cash = s.cash ∧
    (s.ui_upgrade_effect n).prestige_level = s.prestige_level ∧
    (s.ui_upgrade_effect n).prestige_bonus = s.prestige_bonus ∧
    (s.ui_upgrade_effect n).total_earnings = s.total_earnings ∧
    (s.ui_upgrade_effect n).upgrades = s.upgrades ∧
    (s.ui_upgrade_effect n).booster_upgrades = s.booster_upgrades ∧
    (s.ui_upgrade_effect n).achievements = s.achievements := by
  unfold GameState.ui_upgrade_effect
  split_ifs <;> exact ⟨rfl, rfl, rfl, rfl, rfl, rfl, rfl⟩

/-- The UI's bound effect callables never change any particle's `count`. -/
theorem ui_upgrade_effect_count (s : GameState) (n : String) (k : String) :
    (pget (s.ui_upgrade_effect n).particles k).map ParticleType.count
      = (pget s.particles k).map ParticleType.count := by
  unfold GameState.ui_upgrade_effect
  split_ifs <;> first
    | rfl
    | exact map_field_pmodify _ _ _ _ _ (fun _ => rfl)

/-- The UI's bound effect callables never touch `purchased_upgrades` — on
this purchase path the upgrade id is never recorded. -/
theorem ui_upgrade_effect_purchased (s : GameState) (n : String) (k : String) :
    (pget (s.ui_upgrade_effect n).particles k).map ParticleType.purchased_upgrades
      = (pget s.particles k).map ParticleType.purchased_upgrades := by
  unfold GameState.ui_upgrade_effect
  split_ifs <;> first
    | rfl
    | exact map_field_pmodify _ _ _ _ _ (fun _ => rfl)

/-- C3 amended: the program has two upgrade purchase paths.
`GameState.process_upgrade_purchase` requires only that the upgrade is not
already purchased and that the paying account (cash, or the
`costCurrencyId` particle's count) covers the cost — it does *not* check
that the target resource is unlocked; on success it debits the right
account, appends the upgrade id to the requirement particle's
`purchasedUpgradeIds`, applies the effect and sets the purchased flag.
The UI path `GameUI.process_upgrade_click` additionally requires the
requirement particle to exist and be unlocked, but on success it does *not*
append the id to `purchasedUpgradeIds` (its bound effect callable only
rescales production).  On every failure both paths leave the entire state
unchanged. -/
theorem c3_upgrade_purchase_paths (s : GameState) (u : Upgrade) :
    (u.unlocked = true → s.process_upgrade_purchase u = (s, u, false)) ∧
    (u.unlocked = false → u.currency = "cash" → s.cash < u.cost →
      s.process_upgrade_purchase u = (s, u, false)) ∧
    (∀ cp, u.unlocked = false → u.currency ≠ "cash" →
      pget s.particles u.currency = some cp → cp.count < u.cost →
      s.process_upgrade_purchase u = (s, u, false)) ∧
    (u.unlocked = false → u.currency ≠ "cash" → pget s.particles u.currency = none →
      s.process_upgrade_purchase u = (s, u, false)) ∧
    (u.unlocked = false → u.currency = "cash" → u.cost ≤ s.cash →
      (s.process_upgrade_purchase u).1.cash = s.cash - u.cost ∧
      (s.process_upgrade_purchase u).2.1 = { u with unlocked := true } ∧
      (s.process_upgrade_purchase u).2.2 = true ∧
      (∀ p, pget s.particles u.particle_requirement = some p →
        (pget (s.process_upgrade_purchase u).1.particles u.particle_requirement).map
            ParticleType.purchased_upgrades
          = some (p.add_purchased_upgrade u.name).purchased_upgrades)) ∧
    (∀ cp, u.unlocked = false → u.currency ≠ "cash" →
      pget s.particles u.currency = some cp → u.cost ≤ cp.count →
      ((pget (s.process_upgrade_purchase u).1.particles u.currency).map ParticleType.count
          = some (cp.count - u.cost) ∧
        (s.process_upgrade_purchase u).2.1 = { u with unlocked := true } ∧
        (s.process_upgrade_purchase u).2.2 = true)) ∧
    (pget s.particles u.particle_requirement = none →
      s.process_upgrade_click u = (s, u, ClickResult.skipped)) ∧
    (∀ rp, pget s.particles u.particle_requirement = some rp → rp.unlocked = false →
      s.process_upgrade_click u = (s, u, ClickResult.skipped)) ∧
    (∀ rp, pget s.particles u.particle_requirement = some rp → rp.unlocked = true →
      u.unlocked = true → s.process_upgrade_click u = (s, u, ClickResult.skipped)) ∧
    (∀ rp, pget s.particles u.particle_requirement = some rp → rp.unlocked = true →
      u.unlocked = false → u.currency = "cash" → s.cash < u.cost →
      s.process_upgrade_click u = (s, u, ClickResult.notAfford)) ∧
    (∀ rp, pget s.particles u.particle_requirement = some rp → rp.unlocked = true →
      u.unlocked = false → u.currency = "cash" → u.cost ≤ s.cash →
      ((s.process_upgrade_click u).1.cash = s.cash - u.cost ∧
        (s.process_upgrade_click u).2.1 = { u with unlocked := true } ∧
        (s.process_upgrade_click u).2.2 = ClickResult.purchased ∧
        (∀ k, (pget (s.process_upgrade_click u).1.particles k).map
            ParticleType.purchased_upgrades
          = (pget s.particles k).map ParticleType.purchased_upgrades))) ∧
    (∀ rp cp, pget s.particles u.particle_requirement = some rp → rp.unlocked = true →
      u.unlocked = false → u.currency ≠ "cash" →
      pget s.particles u.currency = some cp → u.cost ≤ cp.count →
      ((pget (s.process_upgrade_click u).1.particles u.currency).map ParticleType.count
          = some (cp.count - u.cost) ∧
        (s.process_upgrade_click u).2.1 = { u with unlocked := true } ∧
        (s.process_upgrade_click u).2.2 = ClickResult.purchased)) := by
  refine ⟨?_, ?_, ?_, ?_, ?_, ?_, ?_, ?_, ?_, ?_, ?_, ?_⟩
  · intro hu
    unfold GameState.process_upgrade_purchase
    rw [if_pos hu]
  · intro hu hcur hlt
    unfold GameState.process_upgrade_purchase
    rw [if_neg (by simp [hu]), if_pos hcur, if_pos hlt]
  · intro cp hu hcur hcp hlt
    unfold GameState.process_upgrade_purchase
    rw [if_neg (by simp [hu]), if_neg hcur]
    simp only [hcp]
    rw [if_pos hlt]
  · intro hu hcur hnone
    unfold GameState.process_upgrade_purchase
    rw [if_neg (by simp [hu]), if_neg hcur]
    simp only [hnone]
  · intro hu hcur hc
    have heq : s.process_upgrade_purchase u
        = (({ s with cash := s.cash - u.cost } : GameState).apply_upgrade_effect u,
           { u with unlocked := true }, true) := by
      unfold GameState.process_upgrade_purchase
      rw [if_neg (by simp [hu]), if_pos hcur, if_neg (not_lt.mpr hc)]
    rw [heq]
    exact ⟨(apply_upgrade_effect_scalars _ u).1, rfl, rfl,
      fun p hp => apply_upgrade_effect_purchased _ u p hp⟩
  · intro cp hu hcur hcp hc
    have heq : s.process_upgrade_purchase u
        = (({ s with particles := pmodify s.particles u.currency fun q => { q with count := q.count - u.cost } } : GameState).apply_upgrade_effect u,
           { u with unlocked := true }, true) := by
      unfold GameState.process_upgrade_purchase
      rw [if_neg (by simp [hu]), if_neg hcur]
      simp only [hcp]
      rw [if_neg (not_lt.mpr hc)]
    rw [heq]
    refine ⟨?_, rfl, rfl⟩
    rw [apply_upgrade_effect_count]
    show (pget (pmodify s.particles u.currency
      (fun q => { q with count := q.count - u.cost })) u.currency).map ParticleType.count = _
    rw [pget_pmodify, if_pos rfl, hcp]
    rfl
  · intro hnone
    unfold GameState.process_upgrade_click
    simp only [hnone]
  · intro rp hrp hlp
    unfold GameState.process_upgrade_click
    simp only [hrp]
    rw [if_pos hlp]
  · intro rp hrp hru hu
    unfold GameState.process_upgrade_click
    simp only [hrp]
    rw [if_neg (by simp [hru]), if_pos hu]
  · intro rp hrp hru hu hcur hlt
    unfold GameState.process_upgrade_click
    simp only [hrp]
    rw [if_neg (by simp [hru]), if_neg (by simp [hu]), if_pos hcur,
      if_neg (not_le.mpr hlt)]
  · intro rp hrp hru hu hcur hc
    have heq : s.process_upgrade_click u
        = (({ s with cash := s.cash - u.cost } : GameState).ui_upgrade_effect u.name,
           { u with unlocked := true }, ClickResult.purchased) := by
      unfold GameState.process_upgrade_click
      simp only [hrp]
      rw [if_neg (by simp [hru]), if_neg (by simp [hu]), if_pos hcur, if_pos hc]
    rw [heq]
    exact ⟨(ui_upgrade_effect_scalars _ _).1, rfl, rfl,
      fun k => ui_upgrade_effect_purchased _ _ k⟩
  · intro rp cp hrp hru hu hcur hcp hc
    have heq : s.process_upgrade_click u
        = (({ s with particles := pmodify s.particles u.currency fun q => { q with count := q.count - u.cost } } : GameState).ui_upgrade_effect u.name,
           { u with unlocked := true }, ClickResult.purchased) := by
      unfold GameState.process_upgrade_click
      simp only [hrp]
      rw [if_neg (by simp [hru]), if_neg (by simp [hu]), if_neg hcur]
      simp only [hcp]
      rw [if_pos hc]
    rw [heq]
    refine ⟨?_, rfl, rfl⟩
    rw [ui_upgrade_effect_count]
    show (pget (pmodify s.particles u.currency
      (fun q => { q with count := q.count - u.cost })) u.currency).map ParticleType.count = _
    rw [pget_pmodify, if_pos rfl, hcp]
    rfl

set_option maxRecDepth 2048 in
/-- C3 counterexample: on a fresh state with 500 cash — beta still locked —
`GameState.process_upgrade_purchase` *succeeds* in buying Hyperspace
Fabrication (whose target resource is the locked beta), debiting the full
500, refuting "buying the upgrade succeeds only when ... its target
resource is unlocked". -/
theorem c3_counterexample :
    ((pget ({ initGameState 0 with cash := 500 } : GameState).particles "beta").map
        ParticleType.unlocked = some false) ∧
    ((({ initGameState 0 with cash := 500 } : GameState).process_upgrade_purchase
        hyperspaceFabrication).2.2 = true) ∧
    ((({ initGameState 0 with cash := 500 } : GameState).process_upgrade_purchase
        hyperspaceFabrication).1.cash = 0) := by
  have heq : ({ initGameState 0 with cash := 500 } : GameState).process_upgrade_purchase
        hyperspaceFabrication
      = (({ initGameState 0 with cash := (500 : ℚ) - 500 } : GameState).apply_upgrade_effect
           hyperspaceFabrication,
         { hyperspaceFabrication with unlocked := true }, true) := by
    unfold GameState.process_upgrade_purchase
    rw [if_neg (by simp [show hyperspaceFabrication.unlocked = false from rfl]),
      if_pos (show hyperspaceFabrication.currency = "cash" from rfl),
      if_neg (show ¬(({ initGameState 0 with cash := 500 } : GameState).cash
        < hyperspaceFabrication.cost) by with_unfolding_all decide)]
    rfl
  refine ⟨?_, by rw [heq], ?_⟩
  · show (pget initParticles "beta").map ParticleType.unlocked = some false
    rw [initParticles_eq]
    simp [pget, betaCat, betaInit]
  · rw [heq]
    show (GameState.apply_upgrade_effect _ _).cash = 0
    rw [(apply_upgrade_effect_scalars _ _).1]
    norm_num

set_option maxRecDepth 2048 in
/-- Witness for C3's amended statement: with 100 cash, buying Quantum
Computing succeeds on both paths — `process_upgrade_purchase` debits the
100, sets the flag and appends "Quantum Computing" to alpha's
`purchased_upgrades`, while the UI click path debits and sets the flag but
leaves `purchased_upgrades` empty. -/
theorem c3_upgrade_purchase_paths_witness :
    ((({ initGameState 0 with cash := 100 } : GameState).process_upgrade_purchase
        quantumComputing).1.cash = 0) ∧
    ((({ initGameState 0 with cash := 100 } : GameState).process_upgrade_purchase
        quantumComputing).2.2 = true) ∧
    ((pget (({ initGameState 0 with cash := 100 } : GameState).process_upgrade_purchase
        quantumComputing).1.particles "alpha").map ParticleType.purchased_upgrades
      = some ["Quantum Computing"]) ∧
    ((({ initGameState 0 with cash := 100 } : GameState).process_upgrade_click
        quantumComputing).1.cash = 0) ∧
    ((({ initGameState 0 with cash := 100 } : GameState).process_upgrade_click
        quantumComputing).2.2 = ClickResult.purchased) ∧
    ((pget (({ initGameState 0 with cash := 100 } : GameState).process_upgrade_click
        quantumComputing).1.particles "alpha").map ParticleType.purchased_upgrades
      = some []) := by
  have h := c3_upgrade_purchase_paths { initGameState 0 with cash := 100 } quantumComputing
  have hp : pget ({ initGameState 0 with cash := 100 } : GameState).particles "alpha"
      = some alphaCat := by
    show pget initParticles "alpha" = some alphaCat
    rw [initParticles_eq]; simp [pget]
  have hc : quantumComputing.cost ≤ ({ initGameState 0 with cash := 100 } : GameState).cash := by
    with_unfolding_all decide
  obtain ⟨hcash, _, hflag, happ⟩ := h.2.2.2.2.1 rfl rfl hc
  obtain ⟨hcash2, _, hflag2, hnoapp⟩ :=
    h.2.2.2.2.2.2.2.2.2.2.1 alphaCat hp rfl rfl rfl hc
  refine ⟨?_, hflag, ?_, ?_, hflag2, ?_⟩
  · rw [hcash]; norm_num [quantumComputing]
  · rw [show quantumComputing.particle_requirement = "alpha" from rfl] at happ
    rw [happ alphaCat hp]
    with_unfolding_all decide
  · rw [hcash2]; norm_num [quantumComputing]
  · rw [hnoapp "alpha", hp]
    with_unfolding_all decide

/-! ### C7 — achievement evaluation -/

theorem checkAchLoop_none (s : GameState) (l : List Achievement)
    (h : ∀ a ∈ l, a.unlocked = true ∨ achCondition a.name s = false) :
    checkAchLoop s l = (l, s.prestige_bonus, none) := by
  induction l with
  | nil => rfl
  | cons a rest ih =>
    have hcond : ¬(a.unlocked = false ∧ achCondition a.name s = true) := by
      rcases h a (List.mem_cons_self a rest) with h1 | h1 <;> rintro ⟨h2, h3⟩
      · rw [h1] at h2; cases h2
      · rw [h1] at h3; cases h3
    simp only [checkAchLoop]
    rw [if_neg hcond, ih fun b hb => h b (List.mem_cons_of_mem a hb)]

theorem checkAchLoop_none_inv (s : GameState) (l : List Achievement)
    (h : (checkAchLoop s l).2.2 = none) :
    checkAchLoop s l = (l, s.prestige_bonus, none) := by
  induction l with
  | nil => rfl
  | cons a rest ih =>
    by_cases hc : (a.unlocked = false ∧ achCondition a.name s = true)
    · exfalso
      simp only [checkAchLoop] at h
      rw [if_pos hc] at h
      cases h
    · simp only [checkAchLoop] at h ⊢
      rw [if_neg hc] at h ⊢
      have := ih h
      rw [this]

theorem checkAchLoop_some (s : GameState) (l : List Achievement) (a : Achievement)
    (h : (checkAchLoop s l).2.2 = some a) :
    ∃ l1 a0 l2, l = l1 ++ a0 :: l2 ∧
      (∀ b ∈ l1, b.unlocked = true ∨ achCondition b.name s = false) ∧
      a0.unlocked = false ∧ achCondition a0.name s = true ∧
      a = { a0 with unlocked := true } ∧
      (checkAchLoop s l).1 = l1 ++ { a0 with unlocked := true } :: l2 ∧
      (checkAchLoop s l).2.1 = s.prestige_bonus * a0.reward := by
  induction l with
  | nil => cases h
  | cons b rest ih =>
    by_cases hc : (b.unlocked = false ∧ achCondition b.name s = true)
    · have ha : a = { b with unlocked := true } := by
        simp only [checkAchLoop] at h
        rw [if_pos hc] at h
        exact (Option.some.injEq _ _ ▸ h : _).symm
      refine ⟨[], b, rest, rfl, by simp, hc.1, hc.2, ha, ?_, ?_⟩
      · simp only [checkAchLoop]
        rw [if_pos hc]
        rfl
      · simp only [checkAchLoop]
        rw [if_pos hc]
    · have h' : (checkAchLoop s rest).2.2 = some a := by
        simp only [checkAchLoop] at h
        rw [if_neg hc] at h
        exact h
      obtain ⟨l1, a0, l2, hl, hall, h1, h2, h3, h4, h5⟩ := ih h'
      have hb : b.unlocked = true ∨ achCondition b.name s = false := by
        by_cases hbu : b.unlocked = true
        · exact Or.inl hbu
        · refine Or.inr ?_
          cases hach : achCondition b.name s
          · rfl
          · exact absurd ⟨Bool.not_eq_true _ ▸ hbu, hach⟩ hc
      refine ⟨b :: l1, a0, l2, by rw [hl, List.cons_append], ?_, h1, h2, h3, ?_, ?_⟩
      · intro c hcmem
        rcases List.mem_cons.mp hcmem with hceq | hcm
        · rw [hceq]; exact hb
        · exact hall c hcm
      · simp only [checkAchLoop]
        rw [if_neg hc]
        simp [h4]
      · simp only [checkAchLoop]
        rw [if_neg hc]
        exact h5

/-- C7: one `checkAchievements` call unlocks at most one achievement — the
first in declared order that is locked and whose predicate holds — flips
exactly that entry, multiplies the prestige multiplier by its reward
exactly once and returns it; when no locked achievement's predicate holds
(in particular once every satisfiable achievement is unlocked) the call
returns nothing and leaves the state — multiplier included — unchanged, so
repeated calls never re-apply a reward. -/
theorem c7_check_achievements (s : GameState) :
    ((s.check_achievements).2 = none → (s.check_achievements).1 = s) ∧
    ((∀ b ∈ s.achievements, b.unlocked = true ∨ achCondition b.name s = false) →
      s.check_achievements = (s, none)) ∧
    (∀ a, (s.check_achievements).2 = some a →
      ∃ l1 a0 l2, s.achievements = l1 ++ a0 :: l2 ∧
        (∀ b ∈ l1, b.unlocked = true ∨ achCondition b.name s = false) ∧
        a0.unlocked = false ∧ achCondition a0.name s = true ∧
        a = { a0 with unlocked := true } ∧
        (s.check_achievements).1.achievements = l1 ++ { a0 with unlocked := true } :: l2 ∧
        (s.check_achievements).1.prestige_bonus = s.prestige_bonus * a0.reward ∧
        (s.check_achievements).1.cash = s.cash ∧
        (s.check_achievements).1.particles = s.particles ∧
        (s.check_achievements).1.total_earnings = s.total_earnings) := by
  refine ⟨?_, ?_, ?_⟩
  · intro h
    have hinv := checkAchLoop_none_inv s s.achievements h
    show ({ s with achievements := (checkAchLoop s s.achievements).1, prestige_bonus := (checkAchLoop s s.achievements).2.1 } : GameState) = s
    rw [hinv]
  · intro h
    have hinv := checkAchLoop_none s s.achievements h
    show (({ s with achievements := (checkAchLoop s s.achievements).1, prestige_bonus := (checkAchLoop s s.achievements).2.1 } : GameState), (checkAchLoop s s.achievements).2.2) = (s, none)
    rw [hinv]
  · intro a h
    obtain ⟨l1, a0, l2, hl, hall, h1, h2, h3, h4, h5⟩ :=
      checkAchLoop_some s s.achievements a h
    exact ⟨l1, a0, l2, hl, hall, h1, h2, h3, h4, h5, rfl, rfl, rfl⟩

/-- Witness for C7: on a state whose three achievements are all already
unlocked, `checkAchievements` returns nothing and changes nothing (in
particular the multiplier), however often it is called. -/
theorem c7_check_achievements_witness :
    (∀ b ∈ ({ initGameState 0 with
        achievements := achievementsWith true true true } : GameState).achievements,
      b.unlocked = true ∨ achCondition b.name
        ({ initGameState 0 with
          achievements := achievementsWith true true true } : GameState) = false) ∧
    ({ initGameState 0 with
        achievements := achievementsWith true true true } : GameState).check_achievements
      = ({ initGameState 0 with achievements := achievementsWith true true true }, none) := by
  have hall : ∀ b ∈ ({ initGameState 0 with
      achievements := achievementsWith true true true } : GameState).achievements,
      b.unlocked = true ∨ achCondition b.name
        ({ initGameState 0 with
          achievements := achievementsWith true true true } : GameState) = false := by
    intro b hb
    have hb' : b ∈ achievementsWith true true true := hb
    simp only [achievementsWith, List.mem_cons, List.not_mem_nil, or_false] at hb'
    rcases hb' with h | h | h <;> (rw [h]; exact Or.inl rfl)
  exact ⟨hall, (c7_check_achievements _).2.1 hall⟩

/-! ### C5 — unlock thresholds -/

theorem unlockStep_char (t : ℚ) (key msg : String) (e : ℚ) (st : GameState)
    (ms : List String) (p : ParticleType) (hp : pget st.particles key = some p) :
    unlockStep t key msg e (st, ms)
      = if e ≥ t ∧ p.unlocked = false
        then ({ st with particles := pmodify st.particles key fun q => { q with unlocked := true } }, ms ++ [msg])
        else (st, ms) := by
  by_cases h : e ≥ t ∧ p.unlocked = false
  · rw [if_pos h]
    unfold unlockStep
    simp only [hp]
    rw [if_pos h]
  · rw [if_neg h]
    unfold unlockStep
    simp only [hp]
    rw [if_neg h]

theorem econStep_unlocked (dt : ℚ) (acc : GameState × ℚ) (k k' : String) :
    (pget (econStep dt acc k).1.particles k').map ParticleType.unlocked
      = (pget acc.1.particles k').map ParticleType.unlocked := by
  unfold econStep
  dsimp only
  cases h : pget acc.1.particles k with
  | none => rfl
  | some p =>
    dsimp only
    by_cases hu : p.unlocked = true
    · rw [if_pos hu]
      by_cases hc : p.produces = "cash"
      · rw [if_pos hc]
      · rw [if_neg hc]
        cases h2 : pget acc.1.particles p.produces with
        | none => rfl
        | some q =>
          dsimp only
          refine map_field_pmodify _ _ _ _ _ ?_
          exact fun q' => rfl
    · rw [if_neg hu]

theorem foldl_econ_unlocked (dt : ℚ) (keys : List String) (acc : GameState × ℚ)
    (k' : String) :
    (pget (keys.foldl (econStep dt) acc).1.particles k').map ParticleType.unlocked
      = (pget acc.1.particles k').map ParticleType.unlocked := by
  induction keys generalizing acc with
  | nil => rfl
  | cons k rest ih => rw [List.foldl_cons, ih, econStep_unlocked]

/-- `update_economy` factors as `unlockChecks` applied to a state with the
final earnings and the original unlock flags. -/
theorem update_economy_factor (s : GameState) (dt now : ℚ) :
    ∃ s2, s.update_economy dt now = unlockChecks s2 ∧
      s2.total_earnings = (s.update_economy dt now).1.total_earnings ∧
      (∀ k, (pget s2.particles k).map ParticleType.unlocked
        = (pget s.particles k).map ParticleType.unlocked) := by
  refine ⟨_, rfl, (unlockChecks_earnings _).symm, fun k => ?_⟩
  exact foldl_econ_unlocked dt _ (s, 0) k

/-- Behavior of the two threshold checks when both catalog keys are
present: each threshold fires exactly when the earnings have reached it and
the particle is still locked, and then contributes exactly one copy of its
message. -/
theorem unlockChecks_spec (s : GameState) (b g : ParticleType)
    (hbp : pget s.particles "beta" = some b) (hgp : pget s.particles "gamma" = some g) :
    ((pget (unlockChecks s).1.particles "beta").map ParticleType.unlocked
      = some (if s.total_earnings ≥ 500 ∧ b.unlocked = false then true else b.unlocked)) ∧
    ((unlockChecks s).2.count betaMsg
      = if s.total_earnings ≥ 500 ∧ b.unlocked = false then 1 else 0) ∧
    ((pget (unlockChecks s).1.particles "gamma").map ParticleType.unlocked
      = some (if s.total_earnings ≥ 5000 ∧ g.unlocked = false then true else g.unlocked)) ∧
    ((unlockChecks s).2.count gammaMsg
      = if s.total_earnings ≥ 5000 ∧ g.unlocked = false then 1 else 0) := by
  have hbg : ("beta" : String) ≠ "gamma" := by decide
  have hgb : ("gamma" : String) ≠ "beta" := by decide
  unfold unlockChecks
  rw [unlockStep_char 500 "beta" betaMsg s.total_earnings s [] b hbp]
  by_cases hcb : s.total_earnings ≥ 500 ∧ b.unlocked = false
  · rw [if_pos hcb]
    simp only [List.nil_append]
    have hg' : pget (pmodify s.particles "beta" fun q => { q with unlocked := true })
        "gamma" = some g := by
      rw [pget_pmodify, if_neg hbg, hgp]
    rw [unlockStep_char 5000 "gamma" gammaMsg s.total_earnings _ [betaMsg] g hg']
    by_cases hcg : s.total_earnings ≥ 5000 ∧ g.unlocked = false
    · rw [if_pos hcg]
      refine ⟨?_, ?_, ?_, ?_⟩
      · rw [if_pos hcb, pget_pmodify, if_neg hgb, pget_pmodify, if_pos rfl, hbp]
        rfl
      · rw [if_pos hcb]
        simp [betaMsg, gammaMsg]
      · rw [if_pos hcg, pget_pmodify, if_pos rfl, hg']
        rfl
      · rw [if_pos hcg]
        simp [betaMsg, gammaMsg]
    · rw [if_neg hcg]
      refine ⟨?_, ?_, ?_, ?_⟩
      · rw [if_pos hcb, pget_pmodify, if_pos rfl, hbp]
        rfl
      · rw [if_pos hcb]
        simp [betaMsg]
      · rw [if_neg hcg, hg']
        rfl
      · rw [if_neg hcg]
        simp [betaMsg, gammaMsg]
  · rw [if_neg hcb]
    rw [unlockStep_char 5000 "gamma" gammaMsg s.total_earnings s [] g hgp]
    by_cases hcg : s.total_earnings ≥ 5000 ∧ g.unlocked = false
    · rw [if_pos hcg]
      simp only [List.nil_append]
      refine ⟨?_, ?_, ?_, ?_⟩
      · rw [if_neg hcb, pget_pmodify, if_neg hgb, hbp]
        rfl
      · rw [if_neg hcb]
        simp [betaMsg, gammaMsg]
      · rw [if_pos hcg, pget_pmodify, if_pos rfl, hgp]
        rfl
      · rw [if_pos hcg]
        simp [gammaMsg]
    · rw [if_neg hcg]
      refine ⟨?_, ?_, ?_, ?_⟩
      · rw [if_neg hcb, hbp]
        rfl
      · rw [if_neg hcb]
        rfl
      · rw [if_neg hcg, hgp]
        rfl
      · rw [if_neg hcg]
        rfl

/-- `unlockChecks` on a state whose beta is already unlocked: beta stays
unlocked and no beta message is emitted (whatever the gamma entry is). -/
theorem unlockChecks_beta_done (s : GameState) (b : ParticleType)
    (hbp : pget s.particles "beta" = some b) (hbu : b.unlocked = true) :
    ((pget (unlockChecks s).1.particles "beta").map ParticleType.unlocked = some true) ∧
    ((unlockChecks s).2.count betaMsg = 0) := by
  have hgb : ("gamma" : String) ≠ "beta" := by decide
  unfold unlockChecks
  rw [unlockStep_char 500 "beta" betaMsg s.total_earnings s [] b hbp,
    if_neg (by rw [hbu]; simp)]
  cases hg : pget s.particles "gamma" with
  | none =>
    unfold unlockStep
    simp only [hg]
    exact ⟨by rw [hbp]; simp [hbu], rfl⟩
  | some g =>
    rw [unlockStep_char 5000 "gamma" gammaMsg s.total_earnings s [] g hg]
    split_ifs with hcg
    · refine ⟨?_, by simp [betaMsg, gammaMsg]⟩
      show (pget (pmodify s.particles "gamma" _) "beta").map
        ParticleType.unlocked = some true
      rw [pget_pmodify, if_neg hgb, hbp]
      simp [hbu]
    · exact ⟨by rw [hbp]; simp [hbu], rfl⟩

/-- `unlockChecks` on a state whose gamma is already unlocked: gamma stays
unlocked and no gamma message is emitted (whatever the beta entry is). -/
theorem unlockChecks_gamma_done (s : GameState) (g : ParticleType)
    (hgp : pget s.particles "gamma" = some g) (hgu : g.unlocked = true) :
    ((pget (unlockChecks s).1.particles "gamma").map ParticleType.unlocked = some true) ∧
    ((unlockChecks s).2.count gammaMsg = 0) := by
  have hbg : ("beta" : String) ≠ "gamma" := by decide
  unfold unlockChecks
  cases hb : pget s.particles "beta" with
  | none =>
    have hstep : unlockStep 500 "beta" betaMsg s.total_earnings (s, []) = (s, []) := by
      unfold unlockStep
      simp only [hb]
    rw [hstep, unlockStep_char 5000 "gamma" gammaMsg s.total_earnings s [] g hgp,
      if_neg (by rw [hgu]; simp)]
    exact ⟨by rw [hgp]; simp [hgu], rfl⟩
  | some b =>
    rw [unlockStep_char 500 "beta" betaMsg s.total_earnings s [] b hb]
    split_ifs with hcb
    · have hg' : pget (pmodify s.particles "beta" fun q => { q with unlocked := true })
          "gamma" = some g := by
        rw [pget_pmodify, if_neg hbg, hgp]
      simp only [List.nil_append]
      rw [unlockStep_char 5000 "gamma" gammaMsg s.total_earnings _ [betaMsg] g hg',
        if_neg (by rw [hgu]; simp)]
      exact ⟨by rw [hg']; simp [hgu], by simp [betaMsg, gammaMsg]⟩
    · rw [unlockStep_char 5000 "gamma" gammaMsg s.total_earnings s [] g hgp,
        if_neg (by rw [hgu]; simp)]
      exact ⟨by rw [hgp]; simp [hgu], rfl⟩

/-- C5: in every run of the economy with the catalog keys present, the
transition of `totalEarnings` crossing 500 unlocks "beta" (and 5000
unlocks "gamma"), emitting the notification exactly once — for beta, the
exact string "Beta particles unlocked! >>"; below the threshold nothing
unlocks and nothing is emitted; and once a resource is unlocked, no later
`advance` call (any sequence of ticks) ever re-locks it or emits its
notification again. -/
theorem c5_unlock_thresholds :
    (∀ (s : GameState) (dt now : ℚ) (b g : ParticleType),
      pget s.particles "beta" = some b → pget s.particles "gamma" = some g →
      b.unlocked = false →
      (500 ≤ (s.update_economy dt now).1.total_earnings →
        ((pget (s.update_economy dt now).1.particles "beta").map ParticleType.unlocked
            = some true ∧
          (s.update_economy dt now).2.count betaMsg = 1 ∧
          betaMsg = "Beta particles unlocked! >>")) ∧
      ((s.update_economy dt now).1.total_earnings < 500 →
        ((pget (s.update_economy dt now).1.particles "beta").map ParticleType.unlocked
            = some false ∧
          (s.update_economy dt now).2.count betaMsg = 0))) ∧
    (∀ (s : GameState) (dt now : ℚ) (b g : ParticleType),
      pget s.particles "beta" = some b → pget s.particles "gamma" = some g →
      g.unlocked = false →
      (5000 ≤ (s.update_economy dt now).1.total_earnings →
        ((pget (s.update_economy dt now).1.particles "gamma").map ParticleType.unlocked
            = some true ∧
          (s.update_economy dt now).2.count gammaMsg = 1 ∧
          gammaMsg = "Gamma particles unlocked! >>")) ∧
      ((s.update_economy dt now).1.total_earnings < 5000 →
        ((pget (s.update_economy dt now).1.particles "gamma").map ParticleType.unlocked
            = some false ∧
          (s.update_economy dt now).2.count gammaMsg = 0))) ∧
    (∀ (s : GameState) (runs : List (ℚ × ℚ)),
      (pget s.particles "beta").map ParticleType.unlocked = some true →
      ((pget (advanceRun s runs).1.particles "beta").map ParticleType.unlocked = some true ∧
        (advanceRun s runs).2.count betaMsg = 0)) ∧
    (∀ (s : GameState) (runs : List (ℚ × ℚ)),
      (pget s.particles "gamma").map ParticleType.unlocked = some true →
      ((pget (advanceRun s runs).1.particles "gamma").map ParticleType.unlocked = some true ∧
        (advanceRun s runs).2.count gammaMsg = 0)) := by
  refine ⟨?_, ?_, ?_, ?_⟩
  · intro s dt now b g hbp hgp hbu
    obtain ⟨s2, heq, hearn, hflag⟩ := update_economy_factor s dt now
    have hb2 : (pget s2.particles "beta").map ParticleType.unlocked = some b.unlocked := by
      rw [hflag, hbp]; rfl
    obtain ⟨b2, hb2p, hb2u⟩ := Option.map_eq_some'.mp hb2
    have hg2 : (pget s2.particles "gamma").map ParticleType.unlocked = some g.unlocked := by
      rw [hflag, hgp]; rfl
    obtain ⟨g2, hg2p, hg2u⟩ := Option.map_eq_some'.mp hg2
    have hspec := unlockChecks_spec s2 b2 g2 hb2p hg2p
    rw [heq]
    constructor
    · intro hcross
      have hc : s2.total_earnings ≥ 500 ∧ b2.unlocked = false := by
        refine ⟨?_, by rw [hb2u, hbu]⟩
        rw [hearn, heq]
        exact hcross
      rw [hspec.1, hspec.2.1, if_pos hc, if_pos hc]
      exact ⟨rfl, rfl, rfl⟩
    · intro hlt
      have hc : ¬(s2.total_earnings ≥ 500 ∧ b2.unlocked = false) := by
        rintro ⟨h1, _⟩
        rw [hearn, heq] at h1
        exact absurd h1 (not_le.mpr hlt)
      rw [hspec.1, hspec.2.1, if_neg hc, if_neg hc, hb2u, hbu]
      exact ⟨rfl, rfl⟩
  · intro s dt now b g hbp hgp hgu
    obtain ⟨s2, heq, hearn, hflag⟩ := update_economy_factor s dt now
    have hb2 : (pget s2.particles "beta").map ParticleType.unlocked = some b.unlocked := by
      rw [hflag, hbp]; rfl
    obtain ⟨b2, hb2p, hb2u⟩ := Option.map_eq_some'.mp hb2
    have hg2 : (pget s2.particles "gamma").map ParticleType.unlocked = some g.unlocked := by
      rw [hflag, hgp]; rfl
    obtain ⟨g2, hg2p, hg2u⟩ := Option.map_eq_some'.mp hg2
    have hspec := unlockChecks_spec s2 b2 g2 hb2p hg2p
    rw [heq]
    constructor
    · intro hcross
      have hc : s2.total_earnings ≥ 5000 ∧ g2.unlocked = false := by
        refine ⟨?_, by rw [hg2u, hgu]⟩
        rw [hearn, heq]
        exact hcross
      rw [hspec.2.2.1, hspec.2.2.2, if_pos hc, if_pos hc]
      exact ⟨rfl, rfl, rfl⟩
    · intro hlt
      have hc : ¬(s2.total_earnings ≥ 5000 ∧ g2.unlocked = false) := by
        rintro ⟨h1, _⟩
        rw [hearn, heq] at h1
        exact absurd h1 (not_le.mpr hlt)
      rw [hspec.2.2.1, hspec.2.2.2, if_neg hc, if_neg hc, hg2u, hgu]
      exact ⟨rfl, rfl⟩
  · intro s runs hbu
    induction runs generalizing s with
    | nil => exact ⟨hbu, rfl⟩
    | cons t rest ih =>
      obtain ⟨s2, heq, hearn, hflag⟩ := update_economy_factor s t.1 t.2
      have hb2 : (pget s2.particles "beta").map ParticleType.unlocked = some true := by
        rw [hflag]; exact hbu
      obtain ⟨b2, hb2p, hb2u⟩ := Option.map_eq_some'.mp hb2
      have hdone := unlockChecks_beta_done s2 b2 hb2p hb2u
      have hstepu : (pget (s.update_economy t.1 t.2).1.particles "beta").map
          ParticleType.unlocked = some true := by
        rw [heq]; exact hdone.1
      have hstepc : (s.update_economy t.1 t.2).2.count betaMsg = 0 := by
        rw [heq]; exact hdone.2
      have hih := ih (s.update_economy t.1 t.2).1 hstepu
      refine ⟨hih.1, ?_⟩
      show ((s.update_economy t.1 t.2).2
        ++ (advanceRun (s.update_economy t.1 t.2).1 rest).2).count betaMsg = 0
      rw [List.count_append, hstepc, hih.2]
  · intro s runs hgu
    induction runs generalizing s with
    | nil => exact ⟨hgu, rfl⟩
    | cons t rest ih =>
      obtain ⟨s2, heq, hearn, hflag⟩ := update_economy_factor s t.1 t.2
      have hg2 : (pget s2.particles "gamma").map ParticleType.unlocked = some true := by
        rw [hflag]; exact hgu
      obtain ⟨g2, hg2p, hg2u⟩ := Option.map_eq_some'.mp hg2
      have hdone := unlockChecks_gamma_done s2 g2 hg2p hg2u
      have hstepu : (pget (s.update_economy t.1 t.2).1.particles "gamma").map
          ParticleType.unlocked = some true := by
        rw [heq]; exact hdone.1
      have hstepc : (s.update_economy t.1 t.2).2.count gammaMsg = 0 := by
        rw [heq]; exact hdone.2
      have hih := ih (s.update_economy t.1 t.2).1 hstepu
      refine ⟨hih.1, ?_⟩
      show ((s.update_economy t.1 t.2).2
        ++ (advanceRun (s.update_economy t.1 t.2).1 rest).2).count gammaMsg = 0
      rw [List.count_append, hstepc, hih.2]

/-- Witness for C5: the spec scenario — a fresh-catalog state with 60 alpha
particles earns 600 in one `advance(dt=10)` call, crossing 500: beta is
unlocked and exactly one "Beta particles unlocked! >>" message is
emitted. -/
theorem c5_unlock_thresholds_witness :
    (pget (alphaCountState 0 60).particles "beta" = some betaCat) ∧
    (betaCat.unlocked = false) ∧
    (500 ≤ ((alphaCountState 0 60).update_economy 10 3).1.total_earnings) ∧
    ((pget ((alphaCountState 0 60).update_economy 10 3).1.particles "beta").map
        ParticleType.unlocked = some true) ∧
    (((alphaCountState 0 60).update_economy 10 3).2.count betaMsg = 1) := by
  have hbp : pget (alphaCountState 0 60).particles "beta" = some betaCat := by
    rw [alphaCountState_eq]
    simp [catalogState, pget]
  have hgp : pget (alphaCountState 0 60).particles "gamma" = some gammaCat := by
    rw [alphaCountState_eq]
    simp [catalogState, pget]
  have hearn : ((alphaCountState 0 60).update_economy 10 3).1.total_earnings = 600 := by
    rw [alphaCountState_eq,
      update_economy_catalog 0 0 1 0 0 10 3 { alphaCat with count := 60 } betaCat gammaCat
        [quantumComputing, hyperspaceFabrication, gammaResonance]
        [betaBooster, gammaBooster] initAchievements rfl rfl rfl,
      unlockChecks_earnings]
    show (0 : ℚ) + (if ({ alphaCat with count := 60 } : ParticleType).unlocked
      then ({ alphaCat with count := 60 } : ParticleType).calculate_production_per_second 1 * 10
      else 0) = 600
    norm_num [alphaCat, alphaInit, ParticleType.calculate_production_per_second]
  have h := (c5_unlock_thresholds.1 (alphaCountState 0 60) 10 3 betaCat gammaCat hbp hgp
    rfl).1 (by rw [hearn]; norm_num)
  exact ⟨hbp, rfl, by rw [hearn]; norm_num, h.1, h.2.1⟩

/-! ### C8 — save/load round trip -/

/-- C8 counterexample: `load` does not restore `last_update` — it sets it
to the current wall-clock time (`self.last_update = time.time()`, line
474), so `load(save(state))` differs from the original in that §6 field. -/
theorem c8_counterexample :
    ((initGameState 5).load (initGameState 5).to_dict 7).last_update = 7 ∧
    (initGameState 5).last_update = 5 ∧
    ((initGameState 5).load (initGameState 5).to_dict 7).last_update
      ≠ (initGameState 5).last_update := by
  refine ⟨rfl, rfl, ?_⟩
  show (7 : ℚ) ≠ 5
  norm_num

/-- C8 amended: with the catalog unchanged between save and load, loading a
save into a fresh `GameState()` reproduces every persisted §6 field of the
original state — cash, prestige level and bonus, total earnings, each
particle's full record (count, unlocked, purchased_upgrades included), each
upgrade's and booster upgrade's record and each achievement's unlocked
flag — *except* `last_update`, which is reset to the current wall-clock
time instead of the saved value. -/
theorem c8_save_load_roundtrip (cash : ℚ) (lvl : ℤ) (bonus lu earn now n0 : ℚ)
    (pa pb pg : ParticleType) (b1 b2 b3 b4 b5 c1 c2 c3 : Bool) :
    (initGameState n0).load
        (catalogState cash lvl bonus lu earn pa pb pg
          (catalogUpgradesWith b1 b2 b3) (boosterUpgradesWith b4 b5)
          (achievementsWith c1 c2 c3)).to_dict now
      = catalogState cash lvl bonus now earn pa pb pg
          (catalogUpgradesWith b1 b2 b3) (boosterUpgradesWith b4 b5)
          (achievementsWith c1 c2 c3) := by
  simp only [GameState.to_dict, GameState.load, catalogState, List.map,
    ParticleType.to_dict, ParticleType.from_dict, Upgrade.to_dict, Achievement.to_dict,
    catalogUpgradesWith, boosterUpgradesWith, achievementsWith, initGameState,
    initAchievements, quantumComputing, hyperspaceFabrication, gammaResonance,
    betaBooster, gammaBooster, load_upgrades, load_achievements, List.foldl,
    setUnlockedFirst, setAchUnlockedFirst, ensure_default_particles, pget]
  rfl

end Ipigs
